import Mathlib

/-!
# Verification of the `pi_demo` GPU rendering abstraction

A shallow embedding of the rendering layer of the repository:

* `src/gfx/device.rs` — `Device`, `DropManager`, `ResourceId`, stride computation;
* `src/gfx_backend.rs` — `GlesBackend`: resource tables, command dispatch, scissors;
* `src/gfx_backend/pipeline.rs` — `get_inner_attrs`, `set_stencil`, `set_blend_mode`,
  `should_disable_stencil`, the uniform-location cache of `create_pipeline`;
* `src/gfx_backend/buffer.rs` — `InnerBuffer::bind`, `bind_ubo_block`;
* `src/gfx_backend/texture.rs` — `create_texture` (native allocation, coarse);
* `src/gfx_backend/render_target.rs` — `create_fbo`, `InnerRenderTexture::new`.

GL side effects are modelled as a log of emitted GL calls plus a small model of
the native context (allocated object names, bound framebuffer, and an oracle for
`CheckFramebufferStatus`).  Rust `panic!`/`unwrap`/index-out-of-bounds is
modelled by `Option`: a step that panics returns `none`.

The crate declares `gfx::{buffer, commands, pipeline, texture, color, ...}`
submodules that are not present under `src/` (only `gfx/device.rs` is).  The
shapes of those value types (`PipelineOptions`, `StencilOptions`, `BlendMode`,
`Commands`, `VertexAttr`, `TextureInfo`) are reconstructed from their uses in
the backend sources that are present; where the spec alone determines a value
(e.g. `BlendMode::NORMAL`, the handle-drop behaviour) the definition says so
in its doc comment.
-/

namespace PiDemo

/-! ## GL constants (standard Khronos values; `gfx_backend/gl` is generated bindings) -/

def GL_ZERO : Nat := 0
def GL_ONE : Nat := 1
def GL_SRC_COLOR : Nat := 0x0300
def GL_ONE_MINUS_SRC_COLOR : Nat := 0x0301
def GL_SRC_ALPHA : Nat := 0x0302
def GL_ONE_MINUS_SRC_ALPHA : Nat := 0x0303
def GL_DST_ALPHA : Nat := 0x0304
def GL_ONE_MINUS_DST_ALPHA : Nat := 0x0305
def GL_DST_COLOR : Nat := 0x0306
def GL_ONE_MINUS_DST_COLOR : Nat := 0x0307
def GL_FUNC_ADD : Nat := 0x8006
def GL_MIN : Nat := 0x8007
def GL_MAX : Nat := 0x8008
def GL_FUNC_SUBTRACT : Nat := 0x800A
def GL_FUNC_REVERSE_SUBTRACT : Nat := 0x800B
def GL_KEEP : Nat := 0x1E00
def GL_REPLACE : Nat := 0x1E01
def GL_INCR : Nat := 0x1E02
def GL_DECR : Nat := 0x1E03
def GL_INVERT : Nat := 0x150A
def GL_INCR_WRAP : Nat := 0x8507
def GL_DECR_WRAP : Nat := 0x8508
def GL_NEVER : Nat := 0x0200
def GL_LESS : Nat := 0x0201
def GL_EQUAL : Nat := 0x0202
def GL_LEQUAL : Nat := 0x0203
def GL_GREATER : Nat := 0x0204
def GL_NOTEQUAL : Nat := 0x0205
def GL_GEQUAL : Nat := 0x0206
def GL_ALWAYS : Nat := 0x0207
def GL_FRONT : Nat := 0x0404
def GL_BACK : Nat := 0x0405
def GL_CULL_FACE : Nat := 0x0B44
def GL_DEPTH_TEST : Nat := 0x0B71
def GL_STENCIL_TEST : Nat := 0x0B90
def GL_BLEND : Nat := 0x0BE2
def GL_SCISSOR_TEST : Nat := 0x0C11
def GL_TEXTURE_2D : Nat := 0x0DE1
def GL_UNSIGNED_BYTE : Nat := 0x1401
def GL_UNSIGNED_SHORT : Nat := 0x1403
def GL_UNSIGNED_INT : Nat := 0x1405
def GL_FLOAT : Nat := 0x1406
def GL_COLOR_BUFFER_BIT : Nat := 0x4000
def GL_DEPTH_BUFFER_BIT : Nat := 0x0100
def GL_STENCIL_BUFFER_BIT : Nat := 0x0400
def GL_ARRAY_BUFFER : Nat := 0x8892
def GL_ELEMENT_ARRAY_BUFFER : Nat := 0x8893
def GL_UNIFORM_BUFFER : Nat := 0x8A11
def GL_FRAMEBUFFER : Nat := 0x8D40
def GL_COLOR_ATTACHMENT0 : Nat := 0x8CE0
def GL_DEPTH_ATTACHMENT : Nat := 0x8D00
def GL_FRAMEBUFFER_COMPLETE : Nat := 0x8CD5
def GL_TEXTURE0 : Nat := 0x84C0
def GL_TRIANGLES : Nat := 4
def GL_TRIANGLE_STRIP : Nat := 5
def GL_LINES : Nat := 1
def GL_LINE_STRIP : Nat := 3
def GL_LINEAR : Nat := 0x2601
def GL_NEAREST : Nat := 0x2600

/-! ## Value types from `gfx/pipeline.rs` / `gfx/buffer.rs` / `gfx/color.rs`

The `gfx` submodules other than `device.rs` are absent from `src/`; the
variant sets below are exactly those matched on in `src/gfx_backend/to_gl.rs`
and the field sets exactly those read in `src/gfx_backend/pipeline.rs`. -/

inductive StencilAction
  | Keep | Zero | Replace | Increment | IncrementWrap | Decrement | DecrementWrap | Invert
  deriving DecidableEq, Repr

/-- `impl ToGl for StencilAction` in `to_gl.rs`. -/
def StencilAction.to_gl : StencilAction → Nat
  | .Keep => GL_KEEP
  | .Zero => GL_ZERO
  | .Replace => GL_REPLACE
  | .Increment => GL_INCR
  | .IncrementWrap => GL_INCR_WRAP
  | .Decrement => GL_DECR
  | .DecrementWrap => GL_DECR_WRAP
  | .Invert => GL_INVERT

inductive BlendOperation
  | Add | Subtract | ReverseSubtract | Max | Min
  deriving DecidableEq, Repr

/-- `impl ToGl for BlendOperation` in `to_gl.rs`. -/
def BlendOperation.to_gl : BlendOperation → Nat
  | .Add => GL_FUNC_ADD
  | .Subtract => GL_FUNC_SUBTRACT
  | .ReverseSubtract => GL_FUNC_REVERSE_SUBTRACT
  | .Max => GL_MAX
  | .Min => GL_MIN

inductive BlendFactor
  | Zero | One | SourceAlpha | SourceColor | InverseSourceAlpha | InverseSourceColor
  | DestinationAlpha | DestinationColor | InverseDestinationAlpha | InverseDestinationColor
  deriving DecidableEq, Repr

/-- `impl ToGl for BlendFactor` in `to_gl.rs` (note the source maps
`DestinationColor` to `gl::SRC_COLOR`, reproduced as written). -/
def BlendFactor.to_gl : BlendFactor → Nat
  | .Zero => GL_ZERO
  | .One => GL_ONE
  | .SourceAlpha => GL_SRC_ALPHA
  | .SourceColor => GL_SRC_COLOR
  | .InverseSourceAlpha => GL_ONE_MINUS_SRC_ALPHA
  | .InverseSourceColor => GL_ONE_MINUS_SRC_COLOR
  | .DestinationAlpha => GL_DST_ALPHA
  | .DestinationColor => GL_SRC_COLOR
  | .InverseDestinationAlpha => GL_ONE_MINUS_DST_ALPHA
  | .InverseDestinationColor => GL_ONE_MINUS_DST_COLOR

inductive CompareMode
  | None | Less | Equal | LEqual | Greater | NotEqual | GEqual | Always
  deriving DecidableEq, Repr

/-- `impl ToOptionalGl for CompareMode` in `to_gl.rs`. -/
def CompareMode.to_gl : CompareMode → Option Nat
  | .None => Option.none
  | .Less => some GL_LESS
  | .Equal => some GL_EQUAL
  | .LEqual => some GL_LEQUAL
  | .Greater => some GL_GREATER
  | .NotEqual => some GL_NOTEQUAL
  | .GEqual => some GL_GEQUAL
  | .Always => some GL_ALWAYS

inductive CullMode
  | None | Front | Back
  deriving DecidableEq, Repr

/-- `impl ToOptionalGl for CullMode` in `to_gl.rs`. -/
def CullMode.to_gl : CullMode → Option Nat
  | .None => Option.none
  | .Front => some GL_FRONT
  | .Back => some GL_BACK

/-- `BlendMode { src, dst, op }`; fields as read in `set_blend_mode`. -/
structure BlendMode where
  src : BlendFactor
  dst : BlendFactor
  op : BlendOperation
  deriving DecidableEq, Repr

/-- Modelled from the spec: the built-in default "normal" color blend mode
(`BlendMode::NORMAL`, declared in the absent `gfx/pipeline.rs`); standard
premultiplied-alpha-free normal blending.  The theorems below do not depend on
the concrete factor values, only on this constant being the one substituted for
a missing color blend mode. -/
def BlendMode.NORMAL : BlendMode :=
  { src := .SourceAlpha, dst := .InverseSourceAlpha, op := .Add }

/-- `StencilOptions`; fields as read in `set_stencil`. -/
structure StencilOptions where
  stencil_fail : StencilAction
  depth_fail : StencilAction
  pass : StencilAction
  compare : CompareMode
  write_mask : Nat
  read_mask : Nat
  reference : Int
  deriving DecidableEq, Repr

/-- `DepthStencil`; fields as read in `set_depth_stencil`. -/
structure DepthStencil where
  compare : CompareMode
  write : Bool
  deriving DecidableEq, Repr

/-- `ColorMask`; fields as read in `set_color_mask`. -/
structure ColorMask where
  r : Bool
  g : Bool
  b : Bool
  a : Bool
  deriving DecidableEq, Repr

/-- `PipelineOptions`; fields as read in `gfx_backend/pipeline.rs`. -/
structure PipelineOptions where
  color_blend : Option BlendMode
  alpha_blend : Option BlendMode
  stencil : Option StencilOptions
  depth_stencil : DepthStencil
  color_mask : ColorMask
  cull_mode : CullMode
  deriving DecidableEq, Repr

/-- `Color { r, g, b, a }` from `gfx/color.rs`; f32 channels modelled as ℚ. -/
structure Color where
  r : Rat
  g : Rat
  b : Rat
  a : Rat
  deriving DecidableEq, Repr

/-- `Color::TRANSPARENT`, used by `create_fbo`'s transparent clear. -/
def Color.TRANSPARENT : Color := { r := 0, g := 0, b := 0, a := 0 }

/-! ## The emitted GL call log -/

/-- One native GL call, as emitted by the backend.  Values are the post-`to_gl`
machine representations (`Nat` for GLenum/GLuint, `Int` for GLint, ℚ for
GLfloat). -/
inductive GLCall
  | enable (cap : Nat)
  | disable (cap : Nat)
  | stencilMaskCall (mask : Nat)
  | stencilOp (sfail dpfail dppass : Nat)
  | stencilFunc (func : Nat) (ref : Int) (mask : Nat)
  | depthFunc (func : Nat)
  | depthMask (flag : Bool)
  | colorMask (r g b a : Bool)
  | cullFace (mode : Nat)
  | blendFunc (src dst : Nat)
  | blendFuncSeparate (srcRgb dstRgb srcAlpha dstAlpha : Nat)
  | blendEquation (mode : Nat)
  | blendEquationSeparate (modeRgb modeAlpha : Nat)
  | viewport (x y w h : Int)
  | scissor (x y w h : Int)
  | bindFramebuffer (fbo : Nat)
  | bindBufferCall (target : Nat) (buffer : Nat)
  | bindBufferBase (target : Nat) (slot : Nat) (buffer : Nat)
  | bindVertexArray (vao : Nat)
  | useProgram (program : Nat)
  | uniformBlockBinding (program idx slot : Nat)
  | enableVertexAttribArray (loc : Nat)
  | vertexAttribPointer (loc : Nat) (size : Int) (dataType : Nat) (normalized : Bool)
      (stride : Int) (offset : Int)
  | vertexAttribDivisor (loc : Nat) (divisor : Nat)
  | activeTexture (unit : Nat)
  | bindTexture2D (texture : Nat)
  | uniform1i (location : Nat) (value : Int)
  | clearColor (c : Color)
  | clearDepthf (depth : Rat)
  | clearStencil (s : Int)
  | clearCall (mask : Nat)
  | framebufferTexture2D (attachment : Nat) (texture : Nat)
  | genTexture (texture : Nat)
  | genFramebufferCall (fbo : Nat)
  | texImage2D (width height : Int) (format : Nat) (typ : Nat)
  | drawElements (mode : Nat) (count : Int) (typ : Nat) (offset : Int)
  | drawArrays (mode : Nat) (first count : Int)
  | drawElementsInstanced (mode : Nat) (count : Int) (typ : Nat) (offset : Int) (instances : Int)
  | drawArraysInstanced (mode : Nat) (first count instances : Int)
  | deleteShader (shader : Nat)
  | deleteProgram (program : Nat)
  | deleteVertexArray (vao : Nat)
  | deleteBuffer (buffer : Nat)
  | deleteTexture (texture : Nat)
  | deleteFramebuffer (fbo : Nat)
  deriving DecidableEq, Repr

/-! ## Fixed-function state application (`gfx_backend/pipeline.rs`)

Each `set_*` helper is embedded as the list of GL calls it emits; a separate
GL-semantics interpreter (`GLFixedState.apply`) gives the resulting
fixed-function state, so claims about "the stencil test is disabled" or "the
alpha channel's factors" are claims about the interpreted state. -/

/-- `should_disable_stencil` in `gfx_backend/pipeline.rs`. -/
def should_disable_stencil (stencil : Option StencilOptions) : Bool :=
  match stencil with
  | some stencil =>
      stencil.compare = CompareMode.Always
        && stencil.stencil_fail = StencilAction.Keep
        && stencil.depth_fail = StencilAction.Keep
        && stencil.pass = StencilAction.Keep
  | none => true

/-- `set_stencil` in `gfx_backend/pipeline.rs`: the GL calls it emits. -/
def set_stencil (options : PipelineOptions) : List GLCall :=
  if should_disable_stencil options.stencil then
    [.disable GL_STENCIL_TEST]
  else
    match options.stencil with
    | some opts =>
        [.enable GL_STENCIL_TEST,
         .stencilMaskCall opts.write_mask,
         .stencilOp opts.stencil_fail.to_gl opts.depth_fail.to_gl opts.pass.to_gl,
         .stencilFunc (opts.compare.to_gl.getD GL_ALWAYS) opts.reference opts.read_mask]
    | none => []

/-- `set_depth_stencil` in `gfx_backend/pipeline.rs`. -/
def set_depth_stencil (options : PipelineOptions) : List GLCall :=
  (match options.depth_stencil.compare.to_gl with
   | some d => [.enable GL_DEPTH_TEST, .depthFunc d]
   | none => [.disable GL_DEPTH_TEST])
  ++ [.depthMask options.depth_stencil.write]

/-- `set_color_mask` in `gfx_backend/pipeline.rs`. -/
def set_color_mask (options : PipelineOptions) : List GLCall :=
  [.colorMask options.color_mask.r options.color_mask.g options.color_mask.b
    options.color_mask.a]

/-- `set_culling` in `gfx_backend/pipeline.rs`. -/
def set_culling (options : PipelineOptions) : List GLCall :=
  match options.cull_mode.to_gl with
  | some mode => [.enable GL_CULL_FACE, .cullFace mode]
  | none => [.disable GL_CULL_FACE]

/-- `set_blend_mode` in `gfx_backend/pipeline.rs`. -/
def set_blend_mode (options : PipelineOptions) : List GLCall :=
  match options.color_blend, options.alpha_blend with
  | some cbm, none =>
      [.enable GL_BLEND,
       .blendFunc cbm.src.to_gl cbm.dst.to_gl,
       .blendEquation cbm.op.to_gl]
  | some cbm, some abm =>
      [.enable GL_BLEND,
       .blendFuncSeparate cbm.src.to_gl cbm.dst.to_gl abm.src.to_gl abm.dst.to_gl,
       .blendEquationSeparate cbm.op.to_gl abm.op.to_gl]
  | none, some abm =>
      let cbm := BlendMode.NORMAL
      [.enable GL_BLEND,
       .blendFuncSeparate cbm.src.to_gl cbm.dst.to_gl abm.src.to_gl abm.dst.to_gl,
       .blendEquationSeparate cbm.op.to_gl abm.op.to_gl]
  | none, none =>
      [.disable GL_BLEND]

/-- The GL context's fixed-function state relevant to stencil/blend/depth/cull. -/
structure GLFixedState where
  stencil_test : Bool
  stencil_write_mask : Nat
  stencil_op_sfail : Nat
  stencil_op_dpfail : Nat
  stencil_op_dppass : Nat
  stencil_func : Nat
  stencil_ref : Int
  stencil_read_mask : Nat
  blend : Bool
  blend_src_rgb : Nat
  blend_dst_rgb : Nat
  blend_src_alpha : Nat
  blend_dst_alpha : Nat
  blend_eq_rgb : Nat
  blend_eq_alpha : Nat
  depth_test : Bool
  depth_func : Nat
  depth_write : Bool
  cull : Bool
  cull_mode : Nat
  color_mask : ColorMask
  deriving DecidableEq, Repr

/-- GL semantics of one call on the fixed-function state.  Per the GL
specification `BlendFunc`/`BlendEquation` set both channels, the `Separate`
variants set each channel independently, and `Enable`/`Disable` toggle a
capability flag.  Calls that do not touch this state leave it unchanged. -/
def GLFixedState.apply (st : GLFixedState) : GLCall → GLFixedState
  | .enable cap =>
      if cap = GL_STENCIL_TEST then { st with stencil_test := true }
      else if cap = GL_BLEND then { st with blend := true }
      else if cap = GL_DEPTH_TEST then { st with depth_test := true }
      else if cap = GL_CULL_FACE then { st with cull := true }
      else st
  | .disable cap =>
      if cap = GL_STENCIL_TEST then { st with stencil_test := false }
      else if cap = GL_BLEND then { st with blend := false }
      else if cap = GL_DEPTH_TEST then { st with depth_test := false }
      else if cap = GL_CULL_FACE then { st with cull := false }
      else st
  | .stencilMaskCall m => { st with stencil_write_mask := m }
  | .stencilOp a b c =>
      { st with stencil_op_sfail := a, stencil_op_dpfail := b, stencil_op_dppass := c }
  | .stencilFunc f r m =>
      { st with stencil_func := f, stencil_ref := r, stencil_read_mask := m }
  | .depthFunc f => { st with depth_func := f }
  | .depthMask b => { st with depth_write := b }
  | .colorMask r g b a => { st with color_mask := { r := r, g := g, b := b, a := a } }
  | .cullFace m => { st with cull_mode := m }
  | .blendFunc s d =>
      { st with blend_src_rgb := s, blend_dst_rgb := d,
                blend_src_alpha := s, blend_dst_alpha := d }
  | .blendFuncSeparate sr dr sa da =>
      { st with blend_src_rgb := sr, blend_dst_rgb := dr,
                blend_src_alpha := sa, blend_dst_alpha := da }
  | .blendEquation m => { st with blend_eq_rgb := m, blend_eq_alpha := m }
  | .blendEquationSeparate mr ma => { st with blend_eq_rgb := mr, blend_eq_alpha := ma }
  | _ => st

/-- Apply a list of GL calls in order. -/
def GLFixedState.applyCalls (st : GLFixedState) (calls : List GLCall) : GLFixedState :=
  calls.foldl GLFixedState.apply st

/-! ## Vertex attributes (`gfx/buffer.rs` + `gfx_backend/pipeline.rs`)

`gfx/buffer.rs` (absent from `src/`) defines `VertexAttr { location, format }`
where the backend reads the format only through `format.bytes()`,
`format.size()`, `format.to_gl()` and `format.normalized()`; the embedding
carries those four observations directly. -/

/-- `VertexAttr`: `location` plus the four observations of its `VertexFormat`. -/
structure VertexAttr where
  location : Nat
  format_bytes : Int
  format_size : Int
  format_gl : Nat
  format_normalized : Bool
  deriving DecidableEq, Repr

/-- `InnerAttr` in `gfx_backend/pipeline.rs`. -/
structure InnerAttr where
  location : Nat
  size : Int
  data_type : Nat
  normalized : Bool
  offset : Int
  deriving DecidableEq, Repr

/-- `InnerAttr::from(attr, offset)` in `gfx_backend/pipeline.rs`. -/
def InnerAttr.from_attr (attr : VertexAttr) (offset : Int) : InnerAttr :=
  { location := attr.location
    size := attr.format_size
    data_type := attr.format_gl
    normalized := attr.format_normalized
    offset := offset }

/-- The loop body of `get_inner_attrs`: a running `stride` accumulator, each
attribute turned into an `InnerAttr` at the current stride, then the stride
advanced by the attribute's byte size. -/
def get_inner_attrs_from (stride : Int) : List VertexAttr → Int × List InnerAttr
  | [] => (stride, [])
  | attr :: rest =>
      let inner_attr := InnerAttr.from_attr attr stride
      let (s, l) := get_inner_attrs_from (stride + attr.format_bytes) rest
      (s, inner_attr :: l)

/-- `get_inner_attrs` in `gfx_backend/pipeline.rs`: `stride` starts at 0. -/
def get_inner_attrs (attrs : List VertexAttr) : Int × List InnerAttr :=
  get_inner_attrs_from 0 attrs

/-- The stride computed in `Device::inner_create_pipeline_from_raw`
(`vertex_attrs.iter().fold(0, |acc, data| acc + data.format.bytes())`). -/
def device_pipeline_stride (vertex_attrs : List VertexAttr) : Int :=
  vertex_attrs.foldl (fun acc data => acc + data.format_bytes) 0

/-! ## Uniform-location cache (`create_pipeline` in `gfx_backend/pipeline.rs`)

For each active (non-block) uniform the code calls `gl::GetUniformLocation`
(which per the GL specification returns `-1` when the uniform has no
free-standing location) and then matches: `0 => None` (skipped, with a dead
`eprintln!` guard `!name.contains("")` that never fires), `loc => Some(loc as _)`
(kept, cast to `u32`).  The embedding takes the list of raw `GetUniformLocation`
results and produces the cached `uniform_locations` vector. -/

/-- The `filter_map` over active-uniform locations in `create_pipeline`:
result `0` is dropped, any other result is kept cast to `u32`. -/
def cache_uniform_locations (raw_locations : List Int) : List Nat :=
  raw_locations.filterMap fun loc =>
    if loc = 0 then none else some (loc % (2 ^ 32 : Int)).toNat

/-! ## Backend resource tables (`gfx_backend.rs`)

`HashMap<u64, _>` tables are embedded as association lists keyed by ℕ with
`lookup` / `insert` / `remove` mirroring `get` / `insert` / `remove`. -/

/-- `HashMap::get`: the value bound to `k`, if any. -/
def tableLookup (t : List (Nat × α)) (k : Nat) : Option α :=
  match t with
  | [] => none
  | kv :: rest => if kv.1 = k then some kv.2 else tableLookup rest k

/-- `HashMap::insert` (the backend only ever inserts fresh keys). -/
def tableInsert (t : List (Nat × α)) (k : Nat) (v : α) : List (Nat × α) :=
  (k, v) :: t.filter (fun kv => kv.1 ≠ k)

/-- `HashMap::remove`. -/
def tableRemove (t : List (Nat × α)) (k : Nat) : List (Nat × α) :=
  t.filter (fun kv => kv.1 ≠ k)

/-- `VertexStepMode` from `gfx/buffer.rs` (variants as matched in
`VertexAttributes::enable`). -/
inductive VertexStepMode
  | Vertex | Instance
  deriving DecidableEq, Repr

/-- `VertexAttributes` in `gfx_backend/pipeline.rs`. -/
structure VertexAttributes where
  stride : Int
  attrs : List InnerAttr
  vertex_step_mode : VertexStepMode
  deriving DecidableEq, Repr

/-- `VertexAttributes::enable`: the GL calls re-specifying attribute pointers. -/
def VertexAttributes.enableCalls (va : VertexAttributes) : List GLCall :=
  let step_mode : Nat := match va.vertex_step_mode with
    | .Vertex => 0
    | .Instance => 1
  va.attrs.flatMap fun attr =>
    [.enableVertexAttribArray attr.location,
     .vertexAttribPointer attr.location attr.size attr.data_type attr.normalized
       va.stride attr.offset,
     .vertexAttribDivisor attr.location step_mode]

/-- `Kind` in `gfx_backend/buffer.rs`. -/
inductive BufKind
  | Vertex (attrs : VertexAttributes)
  | Index
  | Uniform (slot : Nat) (name : String)
  deriving DecidableEq, Repr

/-- `draw_target` selection in `InnerBuffer::new`. -/
def BufKind.draw_target : BufKind → Nat
  | .Vertex _ => GL_ARRAY_BUFFER
  | .Index => GL_ELEMENT_ARRAY_BUFFER
  | .Uniform _ _ => GL_UNIFORM_BUFFER

/-- `InnerBuffer` in `gfx_backend/buffer.rs` (fields read by the dispatch). -/
structure InnerBuffer where
  buffer : Nat
  block_binded : Bool
  gpu_buff_size : Nat
  draw_usage : Nat
  draw_target : Nat
  kind : BufKind
  last_pipeline : Option Nat
  deriving DecidableEq, Repr

/-- `InnerPipeline` in `gfx_backend/pipeline.rs`.  `ubo_blocks` models the
program's uniform-block index table queried by `gl::GetUniformBlockIndex`. -/
structure InnerPipeline where
  vertex : Nat
  fragment : Nat
  program : Nat
  vao : Nat
  uniform_locations : List Nat
  ubo_blocks : List (String × Nat)
  deriving DecidableEq, Repr

/-- `TextureFormat` from `gfx/texture.rs` (variants as matched in
`gfx_backend/texture.rs`). -/
inductive TextureFormat
  | Rgba32 | R8 | Depth16 | SRgba8
  deriving DecidableEq, Repr

/-- `TextureFilter` from `gfx/texture.rs`. -/
inductive TextureFilter
  | Linear | Nearest
  deriving DecidableEq, Repr

def TextureFilter.to_gl : TextureFilter → Nat
  | .Linear => GL_LINEAR
  | .Nearest => GL_NEAREST

/-- `TextureInfo` fields read by the backend (`gfx/texture.rs` is absent from
`src/`; `bytes` is kept as an opaque byte count). -/
structure TextureInfo where
  width : Int
  height : Int
  format : TextureFormat
  min_filter : TextureFilter
  mag_filter : TextureFilter
  depth : Bool
  bytes : Option (List Nat)
  deriving DecidableEq, Repr

/-- `texture_format` in `gfx_backend/texture.rs`. -/
def texture_format (tf : TextureFormat) : Nat :=
  match tf with
  | .Rgba32 => 0x1908
  | .R8 => 0x1903
  | .Depth16 => 0x81A5
  | .SRgba8 => 0x1908

/-- `InnerTexture` in `gfx_backend/texture.rs`. -/
structure InnerTexture where
  texture : Nat
  size : Int × Int
  is_srgba : Bool
  deriving DecidableEq, Repr

/-- `InnerRenderTexture` in `gfx_backend/render_target.rs`. -/
structure InnerRenderTexture where
  fbo : Nat
  depth_texture : Option Nat
  size : Int × Int
  deriving DecidableEq, Repr

/-! ## The backend state machine (`gfx_backend.rs`) -/

/-- Rust `as i32` on an f32 value: truncation toward zero (`Int.div` is
T-division), modelling the float as the rational it holds. -/
def truncF32 (q : Rat) : Int := Int.tdiv q.num q.den

/-- `DrawPrimitive` from `gfx/pipeline.rs` (variants as matched in `to_gl.rs`). -/
inductive DrawPrimitive
  | Triangles | TriangleStrip | Lines | LineStrip
  deriving DecidableEq, Repr

/-- `impl ToGl for DrawPrimitive` in `to_gl.rs`. -/
def DrawPrimitive.to_gl : DrawPrimitive → Nat
  | .Triangles => GL_TRIANGLES
  | .TriangleStrip => GL_TRIANGLE_STRIP
  | .Lines => GL_LINES
  | .LineStrip => GL_LINE_STRIP

/-- `Commands` from `gfx/commands.rs` (absent from `src/`); the variant set and
field names are exactly those destructured by `GlesBackend::render`.  f32
fields are modelled as ℚ. -/
inductive Commands
  | Begin (color : Option Color) (depth : Option Rat) (stencil : Option Int)
  | End
  | Pipeline (id : Nat) (options : PipelineOptions)
  | BindBuffer (id : Nat)
  | Draw (primitive : DrawPrimitive) (offset : Int) (count : Int)
  | DrawInstanced (primitive : DrawPrimitive) (offset : Int) (count : Int) (length : Int)
  | BindTexture (id : Nat) (slot : Nat) (location : Nat)
  | Size (width : Int) (height : Int)
  | Viewport (x y width height : Rat)
  | Scissors (x y width height : Rat)
  deriving DecidableEq, Repr

/-- The `GlesBackend` fields plus a model of the native GL context it drives:
`gl_next` is the fresh-name source, `gl_fbos` / `gl_textures` the currently
allocated native framebuffer / texture names, `gl_bound_framebuffer` the
`FRAMEBUFFER` binding, `gl_complete` the oracle answering
`CheckFramebufferStatus`, and `gl_calls` the log of emitted calls. -/
structure GlesState where
  buffer_count : Nat
  texture_count : Nat
  pipeline_count : Nat
  render_target_count : Nat
  size : Int × Int
  dpi : Rat
  pipelines : List (Nat × InnerPipeline)
  buffers : List (Nat × InnerBuffer)
  textures : List (Nat × InnerTexture)
  render_targets : List (Nat × InnerRenderTexture)
  using_indices : Bool
  current_pipeline : Nat
  current_uniforms : List Nat
  gl_next : Nat
  gl_fbos : List Nat
  gl_textures : List Nat
  gl_bound_framebuffer : Nat
  gl_complete : Bool
  gl_calls : List GLCall
  deriving DecidableEq, Repr

/-- Append emitted GL calls to the log. -/
def GlesState.emit (s : GlesState) (calls : List GLCall) : GlesState :=
  { s with gl_calls := s.gl_calls ++ calls }

/-- `clear` in `gfx_backend.rs`: accumulate a mask, emit per-component setup,
then a single `Clear` when the mask is non-zero. -/
def clearCalls (color : Option Color) (depth : Option Rat) (stencil : Option Int) :
    List GLCall :=
  let (m1, c1) : Nat × List GLCall := match color with
    | some c => (GL_COLOR_BUFFER_BIT, [.clearColor c])
    | none => (0, [])
  let (m2, c2) : Nat × List GLCall := match depth with
    | some d => (GL_DEPTH_BUFFER_BIT, [.enable GL_DEPTH_TEST, .depthMask true, .clearDepthf d])
    | none => (0, [])
  let (m3, c3) : Nat × List GLCall := match stencil with
    | some st =>
        (GL_STENCIL_BUFFER_BIT, [.enable GL_STENCIL_TEST, .stencilMaskCall 0xff, .clearStencil st])
    | none => (0, [])
  let mask := m1 ||| m2 ||| m3
  c1 ++ c2 ++ c3 ++ (if mask ≠ 0 then [.clearCall mask] else [])

/-- `GlesBackend::viewport`: x/y passed through, width/height scaled by dpi. -/
def viewportCall (x y width height dpi : Rat) : GLCall :=
  .viewport (truncF32 x) (truncF32 y) (truncF32 (width * dpi)) (truncF32 (height * dpi))

/-- `GlesBackend::scissors`: `canvas_height = ((size.1 - (height + y) as i32) as f32
* dpi) as i32`, x/width/height scaled by dpi, with `SCISSOR_TEST` enabled. -/
def scissorsCalls (s : GlesState) (x y width height : Rat) (dpi : Rat) : List GLCall :=
  let canvas_height : Int := truncF32 (((s.size.2 - truncF32 (height + y) : Int) : Rat) * dpi)
  [.enable GL_SCISSOR_TEST,
   .scissor (truncF32 (x * dpi)) canvas_height (truncF32 (width * dpi))
     (truncF32 (height * dpi))]

/-- `GlesBackend::begin`: select the target framebuffer (a render target's FBO
with dpi forced to 1, or the default surface), set the viewport to the target's
full size, then clear. -/
def GlesState.begin (s : GlesState) (target : Option Nat) (color : Option Color)
    (depth : Option Rat) (stencil : Option Int) : GlesState :=
  let render_target := match target with
    | some id => tableLookup s.render_targets id
    | none => none
  match render_target with
  | some rt =>
      let s := { s with gl_bound_framebuffer := rt.fbo }
      s.emit ([.bindFramebuffer rt.fbo,
               viewportCall 0 0 (rt.size.1 : Rat) (rt.size.2 : Rat) 1]
              ++ clearCalls color depth stencil)
  | none =>
      let s := { s with gl_bound_framebuffer := 0 }
      s.emit ([.bindFramebuffer 0,
               viewportCall 0 0 (s.size.1 : Rat) (s.size.2 : Rat) s.dpi]
              ++ clearCalls color depth stencil)

/-- `GlesBackend::end`: disable scissoring, unbind buffer targets and the
vertex array, rebind the default framebuffer, clear `using_indices`. -/
def GlesState.endFrame (s : GlesState) : GlesState :=
  let s := s.emit [.disable GL_SCISSOR_TEST,
                   .bindBufferCall GL_ARRAY_BUFFER 0,
                   .bindBufferCall GL_ELEMENT_ARRAY_BUFFER 0,
                   .bindBufferCall GL_UNIFORM_BUFFER 0,
                   .bindVertexArray 0,
                   .bindFramebuffer 0]
  { s with gl_bound_framebuffer := 0, using_indices := false }

/-- `InnerPipeline::bind`: bind VAO and program, then apply the full
fixed-function state block. -/
def InnerPipeline.bindCalls (pip : InnerPipeline) (options : PipelineOptions) : List GLCall :=
  [.bindVertexArray pip.vao, .useProgram pip.program]
    ++ set_stencil options ++ set_depth_stencil options ++ set_color_mask options
    ++ set_culling options ++ set_blend_mode options

/-- `GlesBackend::set_pipeline`: when the id is present, bind it, clear
`using_indices`, mark it current and cache its uniform locations; a lookup
miss does nothing. -/
def GlesState.set_pipeline (s : GlesState) (id : Nat) (options : PipelineOptions) :
    GlesState :=
  match tableLookup s.pipelines id with
  | some pip =>
      { s.emit (pip.bindCalls options) with
          using_indices := false
          current_pipeline := id
          current_uniforms := pip.uniform_locations }
  | none => s

/-- `InnerBuffer::bind_ubo_block`: set `block_binded`, look up the uniform
block index in the program (`GetUniformBlockIndex`, `INVALID_INDEX` = absent)
and bind it to the buffer's slot when found. -/
def InnerBuffer.bind_ubo_block (buffer : InnerBuffer) (pipeline : InnerPipeline) :
    InnerBuffer × List GLCall :=
  let buffer := { buffer with block_binded := true }
  match buffer.kind with
  | .Uniform slot name =>
      match pipeline.ubo_blocks.find? (fun kv => kv.1 = name) with
      | some kv => (buffer, [.uniformBlockBinding pipeline.program kv.2 slot])
      | none => (buffer, [])
  | _ => (buffer, [])

/-- `InnerBuffer::bind`: record the pipeline when it changed, bind the native
buffer, re-specify vertex attribute pointers when a vertex buffer sees a new
pipeline, and bind the uniform-buffer base for uniform buffers. -/
def InnerBuffer.bindBuf (buffer : InnerBuffer) (pipeline_id : Option Nat) :
    InnerBuffer × List GLCall :=
  let pipeline_changed := pipeline_id.isSome && pipeline_id ≠ buffer.last_pipeline
  let buffer2 := if pipeline_changed then { buffer with last_pipeline := pipeline_id }
    else buffer
  let calls := [GLCall.bindBufferCall buffer.draw_target buffer.buffer]
    ++ (match buffer.kind with
        | .Vertex attrs => if pipeline_changed then attrs.enableCalls else []
        | .Uniform slot _ => [.bindBufferBase GL_UNIFORM_BUFFER slot buffer.buffer]
        | .Index => [])
  (buffer2, calls)

/-- `GlesBackend::bind_buffer`.  A lookup miss on the buffer id does nothing.
For a present uniform buffer whose block is not yet bound the source calls
`self.pipelines.get(&self.current_pipeline).as_ref().unwrap()`: a miss on the
current pipeline is a panic, modelled as `none`. -/
def GlesState.bind_buffer (s : GlesState) (id : Nat) : Option GlesState :=
  match tableLookup s.buffers id with
  | none => some s
  | some buffer =>
      let afterKind : Option (GlesState × InnerBuffer × List GLCall) :=
        match buffer.kind with
        | .Index => some ({ s with using_indices := true }, buffer, [])
        | .Uniform _ _ =>
            if buffer.block_binded then some (s, buffer, [])
            else
              match tableLookup s.pipelines s.current_pipeline with
              | some pip =>
                  let (buffer2, calls) := buffer.bind_ubo_block pip
                  some (s, buffer2, calls)
              | none => none
        | .Vertex _ => some (s, buffer, [])
      match afterKind with
      | none => none
      | some (s1, buffer1, calls1) =>
          let (buffer2, calls2) := buffer1.bindBuf (some s1.current_pipeline)
          some ({ s1.emit (calls1 ++ calls2) with
                    buffers := tableInsert s1.buffers id buffer2 })

/-- `InnerTexture::bind`: activate the unit (`gl_slot(slot).unwrap()` panics
for slots above 7), bind the texture, write the slot into the uniform. -/
def InnerTexture.bindCalls (texture : InnerTexture) (slot : Nat) (location : Nat) :
    Option (List GLCall) :=
  if slot ≤ 7 then
    some [.activeTexture (GL_TEXTURE0 + slot), .bindTexture2D texture.texture,
          .uniform1i location (slot : Int)]
  else none

/-- `GlesBackend::bind_texture` with `get_uniform_loc`: a miss on the texture
id does nothing; for a present texture, `self.current_uniforms[*location as
usize]` panics (`none`) when the index is out of bounds. -/
def GlesState.bind_texture (s : GlesState) (id : Nat) (slot : Nat) (location : Nat) :
    Option GlesState :=
  match tableLookup s.textures id with
  | none => some s
  | some texture =>
      match s.current_uniforms.get? location with
      | some loc =>
          match texture.bindCalls slot loc with
          | some calls => some (s.emit calls)
          | none => none
      | none => none

/-- `GlesBackend::draw`: indexed when `using_indices` is set (note the `* 4`
byte offset), otherwise a plain array draw. -/
def GlesState.draw (s : GlesState) (primitive : DrawPrimitive) (offset count : Int) :
    GlesState :=
  if s.using_indices then
    s.emit [.drawElements primitive.to_gl count GL_UNSIGNED_INT (offset * 4)]
  else
    s.emit [.drawArrays primitive.to_gl offset count]

/-- `GlesBackend::draw_instanced` (the source passes `offset` unscaled here). -/
def GlesState.draw_instanced (s : GlesState) (primitive : DrawPrimitive)
    (offset count length : Int) : GlesState :=
  if s.using_indices then
    s.emit [.drawElementsInstanced primitive.to_gl count GL_UNSIGNED_INT offset length]
  else
    s.emit [.drawArraysInstanced primitive.to_gl offset count length]

/-- One step of the dispatch loop in `GlesBackend::render`; `none` models a
panic unwinding out of the loop. -/
def stepCommand (target : Option Nat) (s : GlesState) : Commands → Option GlesState
  | .Begin color depth stencil => some (s.begin target color depth stencil)
  | .End => some s.endFrame
  | .Pipeline id options => some (s.set_pipeline id options)
  | .BindBuffer id => s.bind_buffer id
  | .Draw primitive offset count => some (s.draw primitive offset count)
  | .DrawInstanced primitive offset count length =>
      some (s.draw_instanced primitive offset count length)
  | .BindTexture id slot location => s.bind_texture id slot location
  | .Size width height => some { s with size := (width, height) }
  | .Viewport x y width height =>
      some (s.emit [viewportCall x y width height s.dpi])
  | .Scissors x y width height =>
      some (s.emit (scissorsCalls s x y width height s.dpi))

/-- `GlesBackend::render`: execute the recorded commands in order. -/
def render (commands : List Commands) (target : Option Nat) (s : GlesState) :
    Option GlesState :=
  match commands with
  | [] => some s
  | cmd :: rest =>
      match stepCommand target s cmd with
      | some s1 => render rest target s1
      | none => none

/-! ## Texture and render-target creation (`gfx_backend/texture.rs`,
`gfx_backend/render_target.rs`, `gfx_backend.rs`) -/

/-- `create_texture` in `gfx_backend/texture.rs`: allocate a native texture
name, set parameters and upload (logged coarsely as `texImage2D`; the depth
branch forces nearest filtering and attaches to the bound framebuffer's depth
attachment point — those calls are in the log). -/
def createTextureGL (s : GlesState) (info : TextureInfo) : Nat × GlesState :=
  let texture := s.gl_next
  let s := { s with gl_next := s.gl_next + 1, gl_textures := s.gl_textures ++ [texture] }
  let depth := info.format = TextureFormat.Depth16
  let depthCalls : List GLCall :=
    if depth then [.framebufferTexture2D GL_DEPTH_ATTACHMENT texture] else []
  let format := if depth then 0x1902 else texture_format info.format
  let typ := if depth then GL_UNSIGNED_SHORT else GL_UNSIGNED_BYTE
  let s := s.emit ([.genTexture texture, .bindTexture2D texture]
    ++ depthCalls ++ [.texImage2D info.width info.height format typ, .bindTexture2D 0])
  (texture, s)

/-- `GlesBackend::create_texture`: allocate the native texture, register an
`InnerTexture` under the next texture id. -/
def GlesState.create_texture (s : GlesState) (info : TextureInfo) : Nat × GlesState :=
  let (texture, s) := createTextureGL s info
  let inner : InnerTexture :=
    { texture := texture
      size := (info.width, info.height)
      is_srgba := info.format = TextureFormat.SRgba8 }
  let s := { s with
    texture_count := s.texture_count + 1
    textures := tableInsert s.textures (s.texture_count + 1) inner }
  (s.texture_count, s)

/-- `create_fbo` in `gfx_backend/render_target.rs`: allocate and bind a fresh
framebuffer, attach the color texture, optionally allocate and attach a depth
texture, then check completeness.  On an incomplete framebuffer it returns the
error immediately — the framebuffer and any depth texture stay allocated and
the framebuffer stays bound.  On success it performs one fully-transparent
clear and rebinds the default framebuffer. -/
def create_fbo (s : GlesState) (texture : Nat) (depth_info : Option (Int × Int)) :
    Except String (Nat × Option Nat) × GlesState :=
  let fbo := s.gl_next
  let s := { s with gl_next := s.gl_next + 1, gl_fbos := s.gl_fbos ++ [fbo],
                    gl_bound_framebuffer := fbo }
  let s := s.emit [.genFramebufferCall fbo, .bindFramebuffer fbo,
                   .framebufferTexture2D GL_COLOR_ATTACHMENT0 texture]
  let (depth_texture, s) : Option Nat × GlesState :=
    match depth_info with
    | some (w, h) =>
        let (dt, s) := createTextureGL s
          { width := w, height := h, format := .Depth16,
            min_filter := .Linear, mag_filter := .Linear, depth := false, bytes := none }
        (some dt, s)
    | none => (none, s)
  if s.gl_complete then
    let s := s.emit (clearCalls (some Color.TRANSPARENT) none none ++ [.bindFramebuffer 0])
    (Except.ok (fbo, depth_texture), { s with gl_bound_framebuffer := 0 })
  else
    (Except.error "Cannot create a render target because the frambuffer is incomplete...", s)

/-- `InnerRenderTexture::new`. -/
def InnerRenderTexture.new (s : GlesState) (texture : InnerTexture) (info : TextureInfo) :
    Except String InnerRenderTexture × GlesState :=
  let depth_info : Option (Int × Int) :=
    if info.depth then some (info.width, info.height) else none
  match create_fbo s texture.texture depth_info with
  | (Except.ok (fbo, depth_texture), s) =>
      (Except.ok { fbo := fbo, depth_texture := depth_texture, size := texture.size }, s)
  | (Except.error e, s) => (Except.error e, s)

/-- `GlesBackend::create_render_texture`: look up the color texture (an
unknown id is an error), build the inner render target, register it under the
next render-target id. -/
def GlesState.create_render_texture (s : GlesState) (texture_id : Nat)
    (info : TextureInfo) : Except String Nat × GlesState :=
  match tableLookup s.textures texture_id with
  | none => (Except.error "Error creating render target: texture id not found.", s)
  | some texture =>
      match InnerRenderTexture.new s texture info with
      | (Except.ok inner_rt, s) =>
          let s := { s with
            render_target_count := s.render_target_count + 1
            render_targets :=
              tableInsert s.render_targets (s.render_target_count + 1) inner_rt }
          (Except.ok s.render_target_count, s)
      | (Except.error e, s) => (Except.error e, s)

/-- `Device::inner_create_render_texture`: create the color texture through
the backend (registering it), then the render target; a failure of the second
step propagates with `?` and leaves the already-registered color texture in
place. -/
def inner_create_render_texture (s : GlesState) (info : TextureInfo) :
    Except String (Nat × Nat) × GlesState :=
  let (tex_id, s) := s.create_texture info
  match s.create_render_texture tex_id info with
  | (Except.ok id, s) => (Except.ok (id, tex_id), s)
  | (Except.error e, s) => (Except.error e, s)

/-! ## Resource cleanup (`gfx/device.rs` + `gfx_backend.rs`) -/

/-- `ResourceId` in `gfx/device.rs`. -/
inductive ResourceId
  | Buffer (id : Nat)
  | Texture (id : Nat)
  | Pipeline (id : Nat)
  | RenderTexture (id : Nat)
  deriving DecidableEq, Repr

/-- `GlesBackend::clean_pipeline`: remove from the table, delete the native
objects. -/
def GlesState.clean_pipeline (s : GlesState) (id : Nat) : GlesState :=
  match tableLookup s.pipelines id with
  | some pip =>
      { s.emit [.deleteShader pip.vertex, .deleteShader pip.fragment,
                .deleteProgram pip.program, .deleteVertexArray pip.vao] with
          pipelines := tableRemove s.pipelines id }
  | none => s

/-- `GlesBackend::clean_buffer`. -/
def GlesState.clean_buffer (s : GlesState) (id : Nat) : GlesState :=
  match tableLookup s.buffers id with
  | some buffer =>
      { s.emit [.deleteBuffer buffer.buffer] with buffers := tableRemove s.buffers id }
  | none => s

/-- `GlesBackend::clean_texture` (also releases the native texture name). -/
def GlesState.clean_texture (s : GlesState) (id : Nat) : GlesState :=
  match tableLookup s.textures id with
  | some texture =>
      { s.emit [.deleteTexture texture.texture] with
          textures := tableRemove s.textures id
          gl_textures := s.gl_textures.filter (fun t => t ≠ texture.texture) }
  | none => s

/-- `GlesBackend::clean_render_target` (also releases the native names). -/
def GlesState.clean_render_target (s : GlesState) (id : Nat) : GlesState :=
  match tableLookup s.render_targets id with
  | some rt =>
      let depthCalls : List GLCall := match rt.depth_texture with
        | some tex => [.deleteTexture tex]
        | none => []
      { s.emit ([.deleteFramebuffer rt.fbo] ++ depthCalls) with
          render_targets := tableRemove s.render_targets id
          gl_fbos := s.gl_fbos.filter (fun f => f ≠ rt.fbo) }
  | none => s

/-- The per-id routing in `GlesBackend::clean`'s `for_each`. -/
def GlesState.cleanResource (s : GlesState) (res : ResourceId) : GlesState :=
  match res with
  | .Pipeline id => s.clean_pipeline id
  | .Buffer id => s.clean_buffer id
  | .Texture id => s.clean_texture id
  | .RenderTexture id => s.clean_render_target id

/-- `GlesBackend::clean`: route each id to its table's removal, in order. -/
def GlesState.cleanBatch (s : GlesState) (to_clean : List ResourceId) : GlesState :=
  to_clean.foldl GlesState.cleanResource s

/-- Is the id still registered in the backend table of its kind? -/
def GlesState.present (s : GlesState) : ResourceId → Bool
  | .Buffer id => (tableLookup s.buffers id).isSome
  | .Texture id => (tableLookup s.textures id).isSome
  | .Pipeline id => (tableLookup s.pipelines id).isSome
  | .RenderTexture id => (tableLookup s.render_targets id).isSome

/-! ## The Device and the drop tracker (`gfx/device.rs`) -/

/-- `Device`: the façade owning the backend and the drop tracker.  The
`DropManager`'s `RwLock<Vec<ResourceId>>` is the `drop_manager` list (single
consumer, the lock only guards concurrent producers). -/
structure Device where
  size : Int × Int
  dpi : Rat
  backend : GlesState
  drop_manager : List ResourceId
  deriving DecidableEq, Repr

/-- `Device::clean`: a no-op returning early when the tracker is empty;
otherwise hand the whole accumulated list to `backend.clean` in one call and
clear the tracker.  The second component records the delivered batch (`none`
when no backend call was made). -/
def Device.clean (d : Device) : Device × Option (List ResourceId) :=
  if d.drop_manager = [] then (d, none)
  else
    ({ d with backend := d.backend.cleanBatch d.drop_manager, drop_manager := [] },
     some d.drop_manager)

/-- The resource kinds whose creation the device can request. -/
inductive RKind
  | Buffer | Texture | Pipeline | RenderTexture
  deriving DecidableEq, Repr

def RKind.toResource (k : RKind) (n : Nat) : ResourceId :=
  match k with
  | .Buffer => .Buffer n
  | .Texture => .Texture n
  | .Pipeline => .Pipeline n
  | .RenderTexture => .RenderTexture n

def ResourceId.kind : ResourceId → RKind
  | .Buffer _ => .Buffer
  | .Texture _ => .Texture
  | .Pipeline _ => .Pipeline
  | .RenderTexture _ => .RenderTexture

def ResourceId.num : ResourceId → Nat
  | .Buffer n => n
  | .Texture n => n
  | .Pipeline n => n
  | .RenderTexture n => n

/-- The per-kind id counter of the backend. -/
def GlesState.counterOf (s : GlesState) : RKind → Nat
  | .Buffer => s.buffer_count
  | .Texture => s.texture_count
  | .Pipeline => s.pipeline_count
  | .RenderTexture => s.render_target_count

/-- The success-path registration step shared by every `GlesBackend::create_*`:
bump the kind's counter and insert a freshly built inner resource under the new
counter value (`create_index_buffer` / `create_texture` /
`create_pipeline` / `create_render_texture` all follow this exact pattern;
the inner value's payload is irrelevant to the lifecycle claims). -/
def GlesState.createResource (s : GlesState) (k : RKind) : GlesState :=
  match k with
  | .Buffer =>
      { s with buffer_count := s.buffer_count + 1
               buffers := tableInsert s.buffers (s.buffer_count + 1)
                 { buffer := 0, block_binded := false, gpu_buff_size := 0,
                   draw_usage := 0, draw_target := GL_ELEMENT_ARRAY_BUFFER,
                   kind := .Index, last_pipeline := none } }
  | .Texture =>
      { s with texture_count := s.texture_count + 1
               textures := tableInsert s.textures (s.texture_count + 1)
                 { texture := 0, size := (1, 1), is_srgba := false } }
  | .Pipeline =>
      { s with pipeline_count := s.pipeline_count + 1
               pipelines := tableInsert s.pipelines (s.pipeline_count + 1)
                 { vertex := 0, fragment := 0, program := 0, vao := 0,
                   uniform_locations := [], ubo_blocks := [] } }
  | .RenderTexture =>
      { s with render_target_count := s.render_target_count + 1
               render_targets := tableInsert s.render_targets (s.render_target_count + 1)
                 { fbo := 0, depth_texture := none, size := (1, 1) } }

/-- A lifecycle operation against the device: create a resource, drop a
handle, or flush the tracker. -/
inductive Op
  | create (k : RKind)
  | dropHandle (r : ResourceId)
  | clean
  deriving DecidableEq, Repr

/-- Run a lifecycle operation.  `create` is the backend's success-path
registration.  `dropHandle` is modelled from the spec: the handle types
(`Buffer`, `Texture`, `Pipeline`, `RenderTexture` in the absent `gfx/`
submodules) push exactly one `ResourceId` onto the drop tracker from their
`Drop` impl ("their destruction enqueues a cleanup entry"), i.e.
`DropManager::push`.  `clean` is `Device::clean`, returning the delivered
batch when a backend call was made. -/
def runOp (d : Device) : Op → Device × Option (List ResourceId)
  | .create k => ({ d with backend := d.backend.createResource k }, none)
  | .dropHandle r => ({ d with drop_manager := d.drop_manager ++ [r] }, none)
  | .clean => d.clean

/-- Run a sequence of lifecycle operations, collecting the delivered batches
in order. -/
def runOps (d : Device) : List Op → Device × List (List ResourceId)
  | [] => (d, [])
  | op :: rest =>
      let (d1, batch) := runOp d op
      let (d2, batches) := runOps d1 rest
      (d2, (match batch with | some b => [b] | none => []) ++ batches)

/-- Per-kind counters, used to state validity of an operation sequence. -/
structure Counts where
  buffer : Nat
  texture : Nat
  pipeline : Nat
  render_texture : Nat
  deriving DecidableEq, Repr

def Counts.get (c : Counts) : RKind → Nat
  | .Buffer => c.buffer
  | .Texture => c.texture
  | .Pipeline => c.pipeline
  | .RenderTexture => c.render_texture

def Counts.bump (c : Counts) : RKind → Counts
  | .Buffer => { c with buffer := c.buffer + 1 }
  | .Texture => { c with texture := c.texture + 1 }
  | .Pipeline => { c with pipeline := c.pipeline + 1 }
  | .RenderTexture => { c with render_texture := c.render_texture + 1 }

def GlesState.counts (s : GlesState) : Counts :=
  { buffer := s.buffer_count, texture := s.texture_count,
    pipeline := s.pipeline_count, render_texture := s.render_target_count }

/-- Validity of a lifecycle sequence (what Rust's ownership gives for free):
every dropped handle was created earlier in the run (its number is between 1
and the current counter of its kind) and no handle is dropped twice. -/
def validOps (c : Counts) (dropped : List ResourceId) : List Op → Bool
  | [] => true
  | .create k :: rest => validOps (c.bump k) dropped rest
  | .dropHandle r :: rest =>
      1 ≤ r.num && r.num ≤ c.get r.kind && !(dropped.contains r)
        && validOps c (r :: dropped) rest
  | .clean :: rest => validOps c dropped rest

/-- The multiset of ids dropped by a sequence of operations. -/
def dropsOf : List Op → List ResourceId
  | [] => []
  | .dropHandle r :: rest => r :: dropsOf rest
  | _ :: rest => dropsOf rest

/-! ## Initial states and concrete sample inputs -/

/-- The backend state right after `GlesBackend::new`: zero counters, empty
tables, size `(0, 0)`, dpi 1, no pipeline current.  The GL-context model
starts with no allocated objects and the default framebuffer bound; the
completeness oracle defaults to `true`. -/
def GlesState.initial : GlesState :=
  { buffer_count := 0, texture_count := 0, pipeline_count := 0, render_target_count := 0
    size := (0, 0), dpi := 1
    pipelines := [], buffers := [], textures := [], render_targets := []
    using_indices := false, current_pipeline := 0, current_uniforms := []
    gl_next := 1, gl_fbos := [], gl_textures := [], gl_bound_framebuffer := 0
    gl_complete := true, gl_calls := [] }

/-- `Device::new`: size `(1, 1)`, dpi 1, empty drop tracker. -/
def Device.initial : Device :=
  { size := (1, 1), dpi := 1, backend := GlesState.initial, drop_manager := [] }

/-- A `PipelineOptions` with everything off (the builder's defaults shape). -/
def plainOptions : PipelineOptions :=
  { color_blend := none, alpha_blend := none, stencil := none
    depth_stencil := { compare := .None, write := false }
    color_mask := { r := true, g := true, b := true, a := true }
    cull_mode := .None }

/-- A concrete index `InnerBuffer` used by the concrete runs below. -/
def sampleIndexBuffer : InnerBuffer :=
  { buffer := 7, block_binded := false, gpu_buff_size := 0
    draw_usage := 0x88E8, draw_target := GL_ELEMENT_ARRAY_BUFFER
    kind := .Index, last_pipeline := none }

/-- A concrete uniform `InnerBuffer` (block not yet bound). -/
def sampleUniformBuffer : InnerBuffer :=
  { buffer := 8, block_binded := false, gpu_buff_size := 0
    draw_usage := 0x88E8, draw_target := GL_UNIFORM_BUFFER
    kind := .Uniform 0 "ubo", last_pipeline := none }

/-- A concrete `InnerPipeline`. -/
def samplePipeline : InnerPipeline :=
  { vertex := 1, fragment := 2, program := 3, vao := 4
    uniform_locations := [5], ubo_blocks := [("ubo", 0)] }

/-- A concrete `InnerTexture`. -/
def sampleTexture : InnerTexture :=
  { texture := 9, size := (16, 16), is_srgba := false }

/-- A backend state holding one index buffer (id 1), one pipeline (id 2), one
texture (id 3) and one uniform buffer (id 4), surface 1280×720 at dpi 1. -/
def sampleState : GlesState :=
  { GlesState.initial with
      size := (1280, 720)
      buffer_count := 4, pipeline_count := 2, texture_count := 3
      buffers := [(1, sampleIndexBuffer), (4, sampleUniformBuffer)]
      pipelines := [(2, samplePipeline)]
      textures := [(3, sampleTexture)] }

/-- The command list of the C4 counterexample: an index buffer is bound after
the last `Begin`, but a `SetPipeline` follows before the draw. -/
def c4Cmds : List Commands :=
  [.Begin none none none, .BindBuffer 1, .Pipeline 2 plainOptions, .Draw .Triangles 0 3]

/-- Claim-side predicate, following the claim's words: has an index buffer
(an id whose entry in the buffer table is of `Index` kind) been bound via a
`BindBuffer` command since the last `Begin` command of the list? -/
def indexBoundSinceLastBegin (s : GlesState) (cmds : List Commands) : Bool :=
  cmds.foldl
    (fun flag cmd =>
      match cmd with
      | .Begin _ _ _ => false
      | .BindBuffer id =>
          match tableLookup s.buffers id with
          | some buffer => (match buffer.kind with | .Index => true | _ => flag)
          | none => flag
      | _ => flag)
    false

/-- Is this GL call one of the four draw entry points? -/
def GLCall.isDraw : GLCall → Bool
  | .drawElements _ _ _ _ => true
  | .drawArrays _ _ _ => true
  | .drawElementsInstanced _ _ _ _ _ => true
  | .drawArraysInstanced _ _ _ _ => true
  | _ => false

/-- A `TextureInfo` requesting a depth companion, for the C5 runs. -/
def sampleRtInfo : TextureInfo :=
  { width := 32, height := 32, format := .Rgba32
    min_filter := .Linear, mag_filter := .Linear, depth := true, bytes := none }

/-- A backend state whose GL context reports an incomplete framebuffer. -/
def incompleteState : GlesState := { GlesState.initial with gl_complete := false }

/-! # Theorems -/

/-! ## C9 — uniform-location caching in `create_pipeline` -/

/-- **C9** (code bug): the uniform-location filter of `create_pipeline`
matches on `0` instead of on GL's not-found sentinel `-1`.  Evaluating the
embedded filter: a uniform whose valid location is `0` is dropped from the
cache (the claim says it must be included), while a uniform that resolves to
"not found" (`-1`) is kept, cast to `u32` as `4294967295` (the claim says it
must be skipped).  A location such as `3` is kept as expected. -/
theorem uniform_location_cache_bug :
    cache_uniform_locations [0] = [] ∧
    cache_uniform_locations [-1] = [4294967295] ∧
    cache_uniform_locations [0, -1, 3] = [4294967295, 3] := by
  decide

/-! ## C2 — stride and offsets -/

/-- `get_inner_attrs_from` accumulates: final stride is the start plus the
total byte size. -/
theorem get_inner_attrs_from_fst (attrs : List VertexAttr) :
    ∀ s : Int, (get_inner_attrs_from s attrs).1 = s + (attrs.map (·.format_bytes)).sum := by
  induction attrs with
  | nil => intro s; simp [get_inner_attrs_from]
  | cons a rest ih =>
      intro s
      simp only [get_inner_attrs_from, List.map_cons, List.sum_cons]
      rw [ih (s + a.format_bytes)]
      ring

/-- The offsets produced by `get_inner_attrs_from s` are the partial sums of
the byte sizes, shifted by `s`. -/
theorem get_inner_attrs_from_offsets (attrs : List VertexAttr) :
    ∀ s : Int,
      (get_inner_attrs_from s attrs).2.map (·.offset) =
        (List.range attrs.length).map
          (fun i => s + ((attrs.take i).map (·.format_bytes)).sum) := by
  induction attrs with
  | nil => intro s; simp [get_inner_attrs_from]
  | cons a rest ih =>
      intro s
      simp only [get_inner_attrs_from, List.map_cons, List.length_cons,
        List.range_succ_eq_map, List.map_map]
      refine congrArg₂ List.cons (by simp [InnerAttr.from_attr]) ?_
      rw [ih (s + a.format_bytes)]
      refine List.map_congr_left fun i _ => ?_
      simp [Function.comp, List.take_succ_cons]
      ring

/-- The offset list of `get_inner_attrs_from` is strictly increasing when all
byte sizes are positive. -/
theorem get_inner_attrs_from_chain (attrs : List VertexAttr)
    (hpos : ∀ a ∈ attrs, 0 < a.format_bytes) :
    ∀ s : Int, ((get_inner_attrs_from s attrs).2.map (·.offset)).Chain' (· < ·) := by
  induction attrs with
  | nil => intro s; simp [get_inner_attrs_from]
  | cons a rest ih =>
      intro s
      have ha : 0 < a.format_bytes := hpos a (List.mem_cons_self a rest)
      have hrest : ∀ x ∈ rest, 0 < x.format_bytes := fun x hx =>
        hpos x (List.mem_cons_of_mem a hx)
      simp only [get_inner_attrs_from, List.map_cons]
      rw [List.chain'_cons']
      refine ⟨?_, ih hrest (s + a.format_bytes)⟩
      intro b hb
      cases rest with
      | nil => simp [get_inner_attrs_from] at hb
      | cons a2 rest2 =>
          simp only [get_inner_attrs_from, List.map_cons, List.head?_cons,
            Option.mem_def, Option.some.injEq] at hb
          subst hb
          simp only [InnerAttr.from_attr]
          omega

/-- **C2**: the pipeline stride computed by the device equals the stride
computed by the backend and both equal the sum of the declared byte sizes in
declaration order; each attribute's offset is the sum of the byte sizes of
the attributes declared before it; and for positive byte sizes the offsets
are strictly increasing in declaration order. -/
theorem pipeline_stride_and_offsets (attrs : List VertexAttr) :
    device_pipeline_stride attrs = (attrs.map (·.format_bytes)).sum ∧
    (get_inner_attrs attrs).1 = (attrs.map (·.format_bytes)).sum ∧
    (get_inner_attrs attrs).2.map (·.offset) =
      (List.range attrs.length).map
        (fun i => ((attrs.take i).map (·.format_bytes)).sum) ∧
    ((∀ a ∈ attrs, 0 < a.format_bytes) →
      ((get_inner_attrs attrs).2.map (·.offset)).Chain' (· < ·)) := by
  refine ⟨?_, ?_, ?_, ?_⟩
  · have h : ∀ (l : List VertexAttr) (s : Int),
        l.foldl (fun acc data => acc + data.format_bytes) s =
          s + (l.map (·.format_bytes)).sum := by
      intro l
      induction l with
      | nil => intro s; simp
      | cons a rest ih => intro s; simp [List.foldl_cons, ih]; ring
    simpa [device_pipeline_stride] using h attrs 0
  · rw [get_inner_attrs, get_inner_attrs_from_fst]; ring
  · rw [get_inner_attrs, get_inner_attrs_from_offsets]
    simp
  · intro hpos
    exact get_inner_attrs_from_chain attrs hpos 0

/-- **C2 witness**: three attributes of byte sizes 8, 12 and 4 — stride 24,
offsets 0, 8, 20, strictly increasing. -/
theorem pipeline_stride_and_offsets_witness :
    device_pipeline_stride
        [{ location := 0, format_bytes := 8, format_size := 2, format_gl := GL_FLOAT,
           format_normalized := false },
         { location := 1, format_bytes := 12, format_size := 3, format_gl := GL_FLOAT,
           format_normalized := false },
         { location := 2, format_bytes := 4, format_size := 4, format_gl := GL_UNSIGNED_BYTE,
           format_normalized := true }] = 24 ∧
    ((get_inner_attrs
        [{ location := 0, format_bytes := 8, format_size := 2, format_gl := GL_FLOAT,
           format_normalized := false },
         { location := 1, format_bytes := 12, format_size := 3, format_gl := GL_FLOAT,
           format_normalized := false },
         { location := 2, format_bytes := 4, format_size := 4, format_gl := GL_UNSIGNED_BYTE,
           format_normalized := true }]).2.map (·.offset)).Chain' (· < ·) := by
  refine ⟨by decide, ?_⟩
  exact (pipeline_stride_and_offsets _).2.2.2 (by decide)

/-! ## C6 — stencil resolution at pipeline bind time -/

/-- **C6**: binding a pipeline disables the stencil test when the stencil
option is absent, or present with compare `Always` and the three ops `Keep`
(and touches nothing else of the stencil state); when a stencil option is
present and any of those four fields differs, the stencil test is enabled and
the write mask, the three ops, the compare function, the reference value and
the read mask are applied. -/
theorem stencil_bind_resolution (options : PipelineOptions) (st : GLFixedState) :
    ((options.stencil = none ∨
      ∃ opts, options.stencil = some opts ∧ opts.compare = CompareMode.Always ∧
        opts.stencil_fail = StencilAction.Keep ∧ opts.depth_fail = StencilAction.Keep ∧
        opts.pass = StencilAction.Keep) →
      st.applyCalls (set_stencil options) = { st with stencil_test := false }) ∧
    (∀ opts, options.stencil = some opts →
      (opts.compare ≠ CompareMode.Always ∨ opts.stencil_fail ≠ StencilAction.Keep ∨
       opts.depth_fail ≠ StencilAction.Keep ∨ opts.pass ≠ StencilAction.Keep) →
      st.applyCalls (set_stencil options) =
        { st with
            stencil_test := true
            stencil_write_mask := opts.write_mask
            stencil_op_sfail := opts.stencil_fail.to_gl
            stencil_op_dpfail := opts.depth_fail.to_gl
            stencil_op_dppass := opts.pass.to_gl
            stencil_func := opts.compare.to_gl.getD GL_ALWAYS
            stencil_ref := opts.reference
            stencil_read_mask := opts.read_mask }) := by
  constructor
  · intro h
    have hd : should_disable_stencil options.stencil = true := by
      rcases h with h | ⟨opts, h, h1, h2, h3, h4⟩
      · simp [should_disable_stencil, h]
      · simp [should_disable_stencil, h, h1, h2, h3, h4]
    cases st
    simp [set_stencil, hd, GLFixedState.applyCalls, GLFixedState.apply]
  · intro opts h hne
    have hd : should_disable_stencil options.stencil = false := by
      rcases hne with h1 | h1 | h1 | h1 <;> simp [should_disable_stencil, h, h1]
    rw [h] at hd
    cases st
    simp [set_stencil, hd, h, GLFixedState.applyCalls, GLFixedState.apply,
      GL_STENCIL_TEST, GL_BLEND, GL_DEPTH_TEST, GL_CULL_FACE]

/-- **C6 witness**: the disable branch at a stencil option that is all
defaults, and the enable branch at one whose pass op is `Replace`. -/
theorem stencil_bind_resolution_witness :
    (GLFixedState.applyCalls
        { stencil_test := true, stencil_write_mask := 1, stencil_op_sfail := 2,
          stencil_op_dpfail := 3, stencil_op_dppass := 4, stencil_func := 5,
          stencil_ref := 6, stencil_read_mask := 7, blend := false,
          blend_src_rgb := 0, blend_dst_rgb := 0, blend_src_alpha := 0,
          blend_dst_alpha := 0, blend_eq_rgb := 0, blend_eq_alpha := 0,
          depth_test := false, depth_func := 0, depth_write := false,
          cull := false, cull_mode := 0,
          color_mask := { r := true, g := true, b := true, a := true } }
        (set_stencil
          { plainOptions with stencil := some (
              { stencil_fail := .Keep, depth_fail := .Keep, pass := .Keep,
                compare := .Always, write_mask := 255, read_mask := 255,
                reference := 1 } : StencilOptions) })).stencil_test = false ∧
    (GLFixedState.applyCalls
        { stencil_test := false, stencil_write_mask := 1, stencil_op_sfail := 2,
          stencil_op_dpfail := 3, stencil_op_dppass := 4, stencil_func := 5,
          stencil_ref := 6, stencil_read_mask := 7, blend := false,
          blend_src_rgb := 0, blend_dst_rgb := 0, blend_src_alpha := 0,
          blend_dst_alpha := 0, blend_eq_rgb := 0, blend_eq_alpha := 0,
          depth_test := false, depth_func := 0, depth_write := false,
          cull := false, cull_mode := 0,
          color_mask := { r := true, g := true, b := true, a := true } }
        (set_stencil
          { plainOptions with stencil := some (
              { stencil_fail := .Keep, depth_fail := .Keep, pass := .Replace,
                compare := .Always, write_mask := 255, read_mask := 255,
                reference := 1 } : StencilOptions) })).stencil_test = true := by
  constructor
  · rw [(stencil_bind_resolution _ _).1 (Or.inr ⟨_, rfl, rfl, rfl, rfl, rfl⟩)]
  · rw [(stencil_bind_resolution _ _).2 _ rfl (by decide)]

/-! ## C7 — blend resolution at pipeline bind time -/

/-- **C7**: a color blend mode with no alpha mode enables blending with the
alpha channel's factors and operation equal to the color channel's; a
color+alpha pair applies each channel independently through the separate
entry points; an alpha-only mode is combined with the built-in default
`BlendMode::NORMAL` color mode; neither present disables blending (and
touches nothing else). -/
theorem blend_bind_resolution (options : PipelineOptions) (st : GLFixedState) :
    (∀ cbm, options.color_blend = some cbm → options.alpha_blend = none →
      st.applyCalls (set_blend_mode options) =
        { st with blend := true
                  blend_src_rgb := cbm.src.to_gl, blend_dst_rgb := cbm.dst.to_gl
                  blend_src_alpha := cbm.src.to_gl, blend_dst_alpha := cbm.dst.to_gl
                  blend_eq_rgb := cbm.op.to_gl, blend_eq_alpha := cbm.op.to_gl } ∧
      ((st.applyCalls (set_blend_mode options)).blend_src_alpha =
          (st.applyCalls (set_blend_mode options)).blend_src_rgb ∧
       (st.applyCalls (set_blend_mode options)).blend_dst_alpha =
          (st.applyCalls (set_blend_mode options)).blend_dst_rgb ∧
       (st.applyCalls (set_blend_mode options)).blend_eq_alpha =
          (st.applyCalls (set_blend_mode options)).blend_eq_rgb)) ∧
    (∀ cbm abm, options.color_blend = some cbm → options.alpha_blend = some abm →
      st.applyCalls (set_blend_mode options) =
        { st with blend := true
                  blend_src_rgb := cbm.src.to_gl, blend_dst_rgb := cbm.dst.to_gl
                  blend_src_alpha := abm.src.to_gl, blend_dst_alpha := abm.dst.to_gl
                  blend_eq_rgb := cbm.op.to_gl, blend_eq_alpha := abm.op.to_gl }) ∧
    (∀ abm, options.color_blend = none → options.alpha_blend = some abm →
      st.applyCalls (set_blend_mode options) =
        { st with blend := true
                  blend_src_rgb := BlendMode.NORMAL.src.to_gl
                  blend_dst_rgb := BlendMode.NORMAL.dst.to_gl
                  blend_src_alpha := abm.src.to_gl, blend_dst_alpha := abm.dst.to_gl
                  blend_eq_rgb := BlendMode.NORMAL.op.to_gl
                  blend_eq_alpha := abm.op.to_gl }) ∧
    (options.color_blend = none → options.alpha_blend = none →
      st.applyCalls (set_blend_mode options) = { st with blend := false }) := by
  refine ⟨?_, ?_, ?_, ?_⟩
  · intro cbm hc ha
    have he : st.applyCalls (set_blend_mode options) =
        { st with blend := true
                  blend_src_rgb := cbm.src.to_gl, blend_dst_rgb := cbm.dst.to_gl
                  blend_src_alpha := cbm.src.to_gl, blend_dst_alpha := cbm.dst.to_gl
                  blend_eq_rgb := cbm.op.to_gl, blend_eq_alpha := cbm.op.to_gl } := by
      cases st
      simp [set_blend_mode, hc, ha, GLFixedState.applyCalls, GLFixedState.apply,
        GL_STENCIL_TEST, GL_BLEND, GL_DEPTH_TEST, GL_CULL_FACE]
    exact ⟨he, by rw [he], by rw [he], by rw [he]⟩
  · intro cbm abm hc ha
    cases st
    simp [set_blend_mode, hc, ha, GLFixedState.applyCalls, GLFixedState.apply,
        GL_STENCIL_TEST, GL_BLEND, GL_DEPTH_TEST, GL_CULL_FACE]
  · intro abm hc ha
    cases st
    simp [set_blend_mode, hc, ha, GLFixedState.applyCalls, GLFixedState.apply,
        GL_STENCIL_TEST, GL_BLEND, GL_DEPTH_TEST, GL_CULL_FACE]
  · intro hc ha
    cases st
    simp [set_blend_mode, hc, ha, GLFixedState.applyCalls, GLFixedState.apply,
        GL_STENCIL_TEST, GL_BLEND, GL_DEPTH_TEST, GL_CULL_FACE]

/-- **C7 witness**: a color-only additive blend mode — blending enabled and
the alpha channel equal to the color channel. -/
theorem blend_bind_resolution_witness :
    ((GLFixedState.applyCalls
        { stencil_test := false, stencil_write_mask := 0, stencil_op_sfail := 0,
          stencil_op_dpfail := 0, stencil_op_dppass := 0, stencil_func := 0,
          stencil_ref := 0, stencil_read_mask := 0, blend := false,
          blend_src_rgb := 1, blend_dst_rgb := 2, blend_src_alpha := 3,
          blend_dst_alpha := 4, blend_eq_rgb := 5, blend_eq_alpha := 6,
          depth_test := false, depth_func := 0, depth_write := false,
          cull := false, cull_mode := 0,
          color_mask := { r := true, g := true, b := true, a := true } }
        (set_blend_mode
          { plainOptions with color_blend := some (
              { src := .One, dst := .One, op := .Add } : BlendMode) })).blend = true) ∧
    ((GLFixedState.applyCalls
        { stencil_test := false, stencil_write_mask := 0, stencil_op_sfail := 0,
          stencil_op_dpfail := 0, stencil_op_dppass := 0, stencil_func := 0,
          stencil_ref := 0, stencil_read_mask := 0, blend := false,
          blend_src_rgb := 1, blend_dst_rgb := 2, blend_src_alpha := 3,
          blend_dst_alpha := 4, blend_eq_rgb := 5, blend_eq_alpha := 6,
          depth_test := false, depth_func := 0, depth_write := false,
          cull := false, cull_mode := 0,
          color_mask := { r := true, g := true, b := true, a := true } }
        (set_blend_mode
          { plainOptions with color_blend := some (
              { src := .One, dst := .One, op := .Add } : BlendMode) })).blend_src_alpha =
      (GLFixedState.applyCalls
        { stencil_test := false, stencil_write_mask := 0, stencil_op_sfail := 0,
          stencil_op_dpfail := 0, stencil_op_dppass := 0, stencil_func := 0,
          stencil_ref := 0, stencil_read_mask := 0, blend := false,
          blend_src_rgb := 1, blend_dst_rgb := 2, blend_src_alpha := 3,
          blend_dst_alpha := 4, blend_eq_rgb := 5, blend_eq_alpha := 6,
          depth_test := false, depth_func := 0, depth_write := false,
          cull := false, cull_mode := 0,
          color_mask := { r := true, g := true, b := true, a := true } }
        (set_blend_mode
          { plainOptions with color_blend := some (
              { src := .One, dst := .One, op := .Add } : BlendMode) })).blend_src_rgb) := by
  have h := (blend_bind_resolution
    { plainOptions with color_blend := some { src := .One, dst := .One, op := .Add } }
    { stencil_test := false, stencil_write_mask := 0, stencil_op_sfail := 0,
      stencil_op_dpfail := 0, stencil_op_dppass := 0, stencil_func := 0,
      stencil_ref := 0, stencil_read_mask := 0, blend := false,
      blend_src_rgb := 1, blend_dst_rgb := 2, blend_src_alpha := 3,
      blend_dst_alpha := 4, blend_eq_rgb := 5, blend_eq_alpha := 6,
      depth_test := false, depth_func := 0, depth_write := false,
      cull := false, cull_mode := 0,
      color_mask := { r := true, g := true, b := true, a := true } }).1
    { src := .One, dst := .One, op := .Add } rfl rfl
  exact ⟨by rw [h.1], h.2.1⟩

/-! ## C8 — scissor transform -/

/-- Truncation of a rational with denominator 1 is its numerator. -/
theorem truncF32_den_one (q : Rat) (h : q.den = 1) : truncF32 q = q.num := by
  rw [truncF32, h]
  cases q.num with
  | ofNat m => simp [Int.tdiv]
  | negSucc m => simp [Int.tdiv, Int.negSucc_eq]

/-- `as i32` of an f32 holding an exact integer is that integer. -/
theorem truncF32_intCast (n : Int) : truncF32 (n : Rat) = n := by
  rw [truncF32_den_one _ (Rat.den_intCast n), Rat.num_intCast]

/-- **C8**: for a scissor command with an integral rectangle, integral DPI
scale and surface height `H`, the emitted native scissor call is
`x' = x·d`, `y' = (H − (height + y))·d`, `w' = w·d`, `h' = h·d`; in
particular at surface height 720, dpi 1 and rect (10, 10, 100, 50) the native
scissor y is 660. -/
theorem scissor_transform (s : GlesState) (a b w h d : Int) (hd : s.dpi = (d : Rat)) :
    stepCommand none s (.Scissors (a : Rat) (b : Rat) (w : Rat) (h : Rat)) =
      some (s.emit [.enable GL_SCISSOR_TEST,
        .scissor (a * d) ((s.size.2 - (h + b)) * d) (w * d) (h * d)]) ∧
    scissorsCalls { GlesState.initial with size := (1280, 720) } 10 10 100 50 1 =
      [.enable GL_SCISSOR_TEST, .scissor 10 660 100 50] := by
  constructor
  · have e1 : truncF32 ((h : Rat) + (b : Rat)) = h + b := by
      rw [← Int.cast_add, truncF32_intCast]
    simp only [stepCommand, scissorsCalls, hd, e1]
    rw [← Int.cast_mul, ← Int.cast_mul, ← Int.cast_mul, ← Int.cast_mul,
      truncF32_intCast, truncF32_intCast, truncF32_intCast, truncF32_intCast]
  · have key : scissorsCalls { GlesState.initial with size := (1280, 720) }
        ((10 : Int) : Rat) ((10 : Int) : Rat) ((100 : Int) : Rat) ((50 : Int) : Rat)
        ((1 : Int) : Rat) =
        [.enable GL_SCISSOR_TEST, .scissor 10 660 100 50] := by
      simp only [scissorsCalls]
      rw [← Int.cast_add, truncF32_intCast]
      rw [← Int.cast_mul, ← Int.cast_mul, ← Int.cast_mul, ← Int.cast_mul,
        truncF32_intCast, truncF32_intCast, truncF32_intCast, truncF32_intCast]
      norm_num [GlesState.initial]
    simpa using key

/-- **C8 witness**: surface height 720, dpi 1, rect (10, 20, 30, 40) — native
scissor (10, 660, 30, 40). -/
theorem scissor_transform_witness :
    stepCommand none { GlesState.initial with size := (1280, 720) }
      (.Scissors ((10 : Int) : Rat) ((20 : Int) : Rat) ((30 : Int) : Rat)
        ((40 : Int) : Rat)) =
      some (GlesState.emit { GlesState.initial with size := (1280, 720) }
        [.enable GL_SCISSOR_TEST, .scissor 10 660 30 40]) := by
  have h := (scissor_transform { GlesState.initial with size := (1280, 720) } 10 20 30 40 1
    (by norm_num [GlesState.initial])).1
  simpa using h

/-! ## C3 — stale ids are skipped silently -/

/-- **C3**: a command whose referenced resource id is absent from the
backend's table of that kind (a stale pipeline, buffer or texture id) is
skipped: its step succeeds, changes nothing, emits nothing, and executing the
list starting with it equals executing the remaining commands — execution
never aborts because of such a lookup miss. -/
theorem stale_id_command_skipped (s : GlesState) (target : Option Nat)
    (rest : List Commands) :
    (∀ id options, tableLookup s.pipelines id = none →
      stepCommand target s (.Pipeline id options) = some s ∧
      render (.Pipeline id options :: rest) target s = render rest target s) ∧
    (∀ id, tableLookup s.buffers id = none →
      stepCommand target s (.BindBuffer id) = some s ∧
      render (.BindBuffer id :: rest) target s = render rest target s) ∧
    (∀ id slot location, tableLookup s.textures id = none →
      stepCommand target s (.BindTexture id slot location) = some s ∧
      render (.BindTexture id slot location :: rest) target s = render rest target s) := by
  refine ⟨?_, ?_, ?_⟩
  · intro id options hmiss
    have hstep : stepCommand target s (.Pipeline id options) = some s := by
      simp [stepCommand, GlesState.set_pipeline, hmiss]
    exact ⟨hstep, by simp [render, hstep]⟩
  · intro id hmiss
    have hstep : stepCommand target s (.BindBuffer id) = some s := by
      simp [stepCommand, GlesState.bind_buffer, hmiss]
    exact ⟨hstep, by simp [render, hstep]⟩
  · intro id slot location hmiss
    have hstep : stepCommand target s (.BindTexture id slot location) = some s := by
      simp [stepCommand, GlesState.bind_texture, hmiss]
    exact ⟨hstep, by simp [render, hstep]⟩

/-- **C3 witness**: in `sampleState` the pipeline id 99, buffer id 99 and
texture id 99 are all stale; each command is skipped and a trailing `End`
still executes. -/
theorem stale_id_command_skipped_witness :
    stepCommand none sampleState (.BindBuffer 99) = some sampleState ∧
    render [.Pipeline 99 plainOptions, .End] none sampleState =
      render [.End] none sampleState := by
  constructor
  · exact ((stale_id_command_skipped sampleState none []).2.1 99 (by decide)).1
  · exact ((stale_id_command_skipped sampleState none [.End]).1 99 plainOptions
      (by decide)).2

/-! ## C10 — dispatch is not total for present ids -/

/-- **C10**: `BindBuffer` on a present uniform buffer whose block is unbound
panics when the current pipeline id is absent from the pipeline table, and
`BindTexture` on a present texture panics when the uniform-location index is
not below the cached list's length; under the corresponding preconditions
(current pipeline present / index in bounds, slot within the supported units)
the steps succeed. -/
theorem dispatch_panics (s : GlesState) :
    (∀ id buffer slot name, tableLookup s.buffers id = some buffer →
      buffer.kind = BufKind.Uniform slot name → buffer.block_binded = false →
      tableLookup s.pipelines s.current_pipeline = none →
      stepCommand none s (.BindBuffer id) = none) ∧
    (∀ id texture slot location, tableLookup s.textures id = some texture →
      s.current_uniforms.length ≤ location →
      stepCommand none s (.BindTexture id slot location) = none) ∧
    (∀ id buffer slot name pip, tableLookup s.buffers id = some buffer →
      buffer.kind = BufKind.Uniform slot name →
      tableLookup s.pipelines s.current_pipeline = some pip →
      ∃ s2, stepCommand none s (.BindBuffer id) = some s2) ∧
    (∀ id texture slot location, tableLookup s.textures id = some texture →
      location < s.current_uniforms.length → slot ≤ 7 →
      ∃ s2, stepCommand none s (.BindTexture id slot location) = some s2) := by
  refine ⟨?_, ?_, ?_, ?_⟩
  · intro id buffer slot name hbuf hkind hbb hmiss
    simp [stepCommand, GlesState.bind_buffer, hbuf, hkind, hbb, hmiss]
  · intro id texture slot location htex hlen
    have hnone : s.current_uniforms[location]? = none :=
      List.getElem?_eq_none hlen
    simp [stepCommand, GlesState.bind_texture, htex, hnone]
  · intro id buffer slot name pip hbuf hkind hpip
    by_cases hb : buffer.block_binded
    · simp [stepCommand, GlesState.bind_buffer, hbuf, hkind, hb]
    · simp [stepCommand, GlesState.bind_buffer, hbuf, hkind, hb, hpip]
  · intro id texture slot location htex hloc hslot
    have hsome : s.current_uniforms[location]? =
        some (s.current_uniforms[location]) := List.getElem?_eq_getElem hloc
    simp [stepCommand, GlesState.bind_texture, htex, hsome, InnerTexture.bindCalls, hslot]

/-- **C10 witness**: in `sampleState` (whose current pipeline id 0 is absent)
binding the present uniform buffer 4 panics, and binding texture 3 with
uniform-location index 1 (cache length 0) panics; after making pipeline 2
current, both succeed with location index 0. -/
theorem dispatch_panics_witness :
    stepCommand none sampleState (.BindBuffer 4) = none ∧
    stepCommand none sampleState (.BindTexture 3 0 5) = none ∧
    (∃ s2, stepCommand none
      { sampleState with current_pipeline := 2, current_uniforms := [5] }
      (.BindBuffer 4) = some s2) ∧
    (∃ s2, stepCommand none
      { sampleState with current_pipeline := 2, current_uniforms := [5] }
      (.BindTexture 3 0 0) = some s2) := by
  refine ⟨?_, ?_, ?_, ?_⟩
  · exact (dispatch_panics sampleState).1 4 sampleUniformBuffer 0 "ubo" (by decide)
      (by decide) (by decide) (by decide)
  · exact (dispatch_panics sampleState).2.1 3 sampleTexture 0 5 (by decide) (by decide)
  · exact (dispatch_panics _).2.2.1 4 sampleUniformBuffer 0 "ubo" samplePipeline
      (by decide) (by decide) (by decide)
  · exact (dispatch_panics _).2.2.2 3 sampleTexture 0 0 (by decide) (by decide)
      (by decide)

/-! ## C4 — indexed draws and the `using_indices` flag -/

/-- **C4 counterexample**: in `sampleState`, running
`[Begin, BindBuffer 1 (an index buffer), SetPipeline 2, Draw]` — an index
buffer *was* bound via a BindBuffer command since the last `Begin`, yet the
draw issued is the non-indexed `DrawArrays`, because `set_pipeline` also
clears the flag.  This falsifies "an indexed draw is issued if and only if an
index buffer has been bound since the last Begin command". -/
theorem draw_indexed_iff_bound_since_begin_cex :
    indexBoundSinceLastBegin sampleState c4Cmds = true ∧
    (render c4Cmds none sampleState).map (fun s2 => s2.gl_calls.filter GLCall.isDraw) =
      some [GLCall.drawArrays GL_TRIANGLES 0 3] := by
  constructor
  · decide
  · norm_num [render, stepCommand, c4Cmds, sampleState, GlesState.initial,
      GlesState.begin, tableLookup, viewportCall, clearCalls, GlesState.emit,
      GlesState.bind_buffer, sampleIndexBuffer, sampleUniformBuffer, samplePipeline,
      InnerBuffer.bindBuf, tableInsert, GlesState.set_pipeline, InnerPipeline.bindCalls,
      set_stencil, should_disable_stencil, plainOptions, set_depth_stencil,
      set_color_mask, set_culling, set_blend_mode, CompareMode.to_gl, CullMode.to_gl,
      GlesState.draw, truncF32, GLCall.isDraw, DrawPrimitive.to_gl, List.filter,
      List.find?]

/-- **C4 amended**: a `Draw` / `DrawInstanced` issues an indexed draw if and
only if the backend's `using_indices` flag is set when it executes (the
instanced variant adding the instance count); the flag is set by a
`BindBuffer` resolving to an `Index`-kind buffer, cleared by `End` and by a
`SetPipeline` whose id is present in the pipeline table, and left unchanged
by `Begin` (contrary to the claim), by lookup-missing `SetPipeline` /
`BindBuffer`, and by non-index buffer binds. -/
theorem draw_indexed_iff_using_indices (s : GlesState) (target : Option Nat) :
    (∀ primitive offset count,
      stepCommand target s (.Draw primitive offset count) =
        some (s.emit [if s.using_indices then
            .drawElements primitive.to_gl count GL_UNSIGNED_INT (offset * 4)
          else .drawArrays primitive.to_gl offset count])) ∧
    (∀ primitive offset count length,
      stepCommand target s (.DrawInstanced primitive offset count length) =
        some (s.emit [if s.using_indices then
            .drawElementsInstanced primitive.to_gl count GL_UNSIGNED_INT offset length
          else .drawArraysInstanced primitive.to_gl offset count length])) ∧
    (∀ color depth stencil,
      (s.begin target color depth stencil).using_indices = s.using_indices) ∧
    (s.endFrame.using_indices = false) ∧
    (∀ id options pip, tableLookup s.pipelines id = some pip →
      (s.set_pipeline id options).using_indices = false) ∧
    (∀ id options, tableLookup s.pipelines id = none →
      (s.set_pipeline id options).using_indices = s.using_indices) ∧
    (∀ id buffer, tableLookup s.buffers id = some buffer →
      buffer.kind = BufKind.Index →
      ∀ s2, s.bind_buffer id = some s2 → s2.using_indices = true) ∧
    (∀ id buffer, tableLookup s.buffers id = some buffer →
      buffer.kind ≠ BufKind.Index →
      ∀ s2, s.bind_buffer id = some s2 → s2.using_indices = s.using_indices) ∧
    (∀ id, tableLookup s.buffers id = none →
      ∀ s2, s.bind_buffer id = some s2 → s2.using_indices = s.using_indices) := by
  refine ⟨?_, ?_, ?_, ?_, ?_, ?_, ?_, ?_, ?_⟩
  · intro primitive offset count
    cases h : s.using_indices <;> simp [stepCommand, GlesState.draw, h]
  · intro primitive offset count length
    cases h : s.using_indices <;> simp [stepCommand, GlesState.draw_instanced, h]
  · intro color depth stencil
    simp only [GlesState.begin]
    split <;> simp [GlesState.emit]
  · simp [GlesState.endFrame, GlesState.emit]
  · intro id options pip h
    simp [GlesState.set_pipeline, h, GlesState.emit]
  · intro id options h
    simp [GlesState.set_pipeline, h]
  · intro id buffer hbuf hkind s2 hs2
    simp only [GlesState.bind_buffer, hbuf, hkind, GlesState.emit] at hs2
    obtain ⟨rfl⟩ := hs2
    rfl
  · intro id buffer hbuf hkind s2 hs2
    match hk : buffer.kind with
    | .Index => exact absurd hk hkind
    | .Vertex attrs =>
        simp only [GlesState.bind_buffer, hbuf, hk, GlesState.emit] at hs2
        obtain ⟨rfl⟩ := hs2
        rfl
    | .Uniform slot name =>
        by_cases hb : buffer.block_binded
        · simp only [GlesState.bind_buffer, hbuf, hk, hb, if_true, GlesState.emit] at hs2
          obtain ⟨rfl⟩ := hs2
          rfl
        · cases hp : tableLookup s.pipelines s.current_pipeline with
          | none =>
              simp [GlesState.bind_buffer, hbuf, hk, hb, hp] at hs2
          | some pip =>
              simp only [GlesState.bind_buffer, hbuf, hk, hb, hp, if_false,
                GlesState.emit] at hs2
              obtain ⟨rfl⟩ := hs2
              rfl
  · intro id hmiss s2 hs2
    simp only [GlesState.bind_buffer, hmiss] at hs2
    obtain ⟨rfl⟩ := hs2
    rfl

/-- **C4 amended witness**: with the flag set, a draw is indexed; `endFrame`
clears the flag; a successful `SetPipeline` on `sampleState` clears it; and
binding index buffer 1 sets it. -/
theorem draw_indexed_iff_using_indices_witness :
    stepCommand none { sampleState with using_indices := true } (.Draw .Triangles 0 3) =
      some (GlesState.emit { sampleState with using_indices := true }
        [.drawElements GL_TRIANGLES 3 GL_UNSIGNED_INT 0]) ∧
    (GlesState.endFrame { sampleState with using_indices := true }).using_indices
      = false ∧
    (sampleState.set_pipeline 2 plainOptions).using_indices = false := by
  refine ⟨?_, ?_, ?_⟩
  · have h := (draw_indexed_iff_using_indices
      { sampleState with using_indices := true } none).1 .Triangles 0 3
    simpa using h
  · exact (draw_indexed_iff_using_indices
      { sampleState with using_indices := true } none).2.2.2.1
  · exact (draw_indexed_iff_using_indices sampleState none).2.2.2.2.1
      2 plainOptions samplePipeline (by decide)

/-! ## Association-table lemmas -/

/-- Looking up the freshly inserted key finds the new value. -/
theorem tableLookup_insert_self {α : Type} (t : List (Nat × α)) (k : Nat) (v : α) :
    tableLookup (tableInsert t k v) k = some v := by
  simp [tableLookup, tableInsert]

/-- Lookup through the filter dropping key `k` agrees with lookup for `n ≠ k`. -/
theorem tableLookup_filter_ne {α : Type} (t : List (Nat × α)) (k n : Nat) (h : n ≠ k) :
    tableLookup (t.filter (fun kv => kv.1 ≠ k)) n = tableLookup t n := by
  induction t with
  | nil => simp
  | cons kv rest ih =>
      by_cases hk : kv.1 = k
      · rw [List.filter_cons_of_neg (by simp [hk])]
        rw [ih]
        have hn : kv.1 ≠ n := by rw [hk]; exact fun hkn => h hkn.symm
        simp [tableLookup, hn]
      · rw [List.filter_cons_of_pos (by simp [hk])]
        by_cases hn : kv.1 = n
        · simp [tableLookup, hn]
        · simp only [tableLookup, hn, if_false]
          simpa using ih

/-- Inserting under a different key does not change a lookup. -/
theorem tableLookup_insert_ne {α : Type} (t : List (Nat × α)) (k n : Nat) (v : α)
    (h : n ≠ k) : tableLookup (tableInsert t k v) n = tableLookup t n := by
  have hk : k ≠ n := fun hkn => h hkn.symm
  simp only [tableInsert, tableLookup, hk, if_false]
  exact tableLookup_filter_ne t k n h

/-- Removal clears the key's binding. -/
theorem tableLookup_remove_self {α : Type} (t : List (Nat × α)) (k : Nat) :
    tableLookup (tableRemove t k) k = none := by
  induction t with
  | nil => simp [tableRemove, tableLookup]
  | cons kv rest ih =>
      rw [tableRemove] at ih ⊢
      by_cases hk : kv.1 = k
      · rw [List.filter_cons_of_neg (by simp [hk])]
        exact ih
      · rw [List.filter_cons_of_pos (by simp [hk])]
        rw [tableLookup, if_neg hk]
        exact ih

/-- Removal preserves the absence of any binding. -/
theorem tableLookup_remove_none {α : Type} (t : List (Nat × α)) (k n : Nat)
    (h : tableLookup t n = none) : tableLookup (tableRemove t k) n = none := by
  by_cases hnk : n = k
  · rw [hnk]; exact tableLookup_remove_self t k
  · rw [tableRemove, tableLookup_filter_ne t k n hnk]; exact h

/-! ## C5 — render-target creation -/

/-- **C5 amended**: render-target creation attaches the color texture and an
optional depth texture and checks completeness.  On an incomplete
framebuffer it returns the framebuffer-incomplete error, but the color
texture stays registered in the backend's texture table, the new framebuffer
(and any depth texture) stays allocated, the framebuffer stays bound (no
rebind of the default framebuffer), no transparent clear is performed, and no
render target is registered.  On success it registers the render target,
performs exactly one fully-transparent clear and rebinds the default
framebuffer before returning. -/
theorem render_target_creation (s : GlesState) (info : TextureInfo) :
    (s.gl_complete = false →
      ∃ s2, inner_create_render_texture s info =
          (Except.error
            "Cannot create a render target because the frambuffer is incomplete...", s2) ∧
        tableLookup s2.textures (s.texture_count + 1) ≠ none ∧
        (s.gl_next + 1) ∈ s2.gl_fbos ∧
        s2.gl_bound_framebuffer = s.gl_next + 1 ∧
        s2.gl_bound_framebuffer ≠ 0 ∧
        s2.render_targets = s.render_targets ∧
        (info.depth = true → (s.gl_next + 2) ∈ s2.gl_textures) ∧
        s2.gl_calls.count (GLCall.clearColor Color.TRANSPARENT) =
          s.gl_calls.count (GLCall.clearColor Color.TRANSPARENT)) ∧
    (s.gl_complete = true →
      ∃ s2, inner_create_render_texture s info =
          (Except.ok (s.render_target_count + 1, s.texture_count + 1), s2) ∧
        tableLookup s2.render_targets (s.render_target_count + 1) ≠ none ∧
        s2.gl_bound_framebuffer = 0 ∧
        s2.gl_calls.count (GLCall.clearColor Color.TRANSPARENT) =
          s.gl_calls.count (GLCall.clearColor Color.TRANSPARENT) + 1) := by
  constructor
  · intro hc
    refine ⟨(inner_create_render_texture s info).2,
      Prod.ext ?_ rfl, ?_, ?_, ?_, ?_, ?_, ?_, ?_⟩ <;>
      by_cases hd : info.depth <;>
      simp [inner_create_render_texture, GlesState.create_texture, createTextureGL,
        GlesState.create_render_texture, InnerRenderTexture.new, create_fbo, hc, hd,
        GlesState.emit, tableLookup_insert_self, clearCalls, List.count_append,
        List.count_cons, Color.TRANSPARENT, GL_COLOR_BUFFER_BIT,
        apply_ite (List.count (GLCall.clearColor { r := 0, g := 0, b := 0, a := 0 }))]
  · intro hc
    refine ⟨(inner_create_render_texture s info).2,
      Prod.ext ?_ rfl, ?_, ?_, ?_⟩ <;>
      by_cases hd : info.depth <;>
      simp [inner_create_render_texture, GlesState.create_texture, createTextureGL,
        GlesState.create_render_texture, InnerRenderTexture.new, create_fbo, hc, hd,
        GlesState.emit, tableLookup_insert_self, clearCalls, List.count_append,
        List.count_cons, Color.TRANSPARENT, GL_COLOR_BUFFER_BIT,
        apply_ite (List.count (GLCall.clearColor { r := 0, g := 0, b := 0, a := 0 }))]

/-- **C5 counterexample**: with an incomplete framebuffer, creating a 32×32
render texture with depth returns the framebuffer-incomplete error yet
leaves texture id 1 registered in the backend table, native framebuffer 2
allocated and still bound — falsifying "leaving no partially registered
resource behind". -/
theorem render_target_creation_cex :
    (inner_create_render_texture incompleteState sampleRtInfo).1 =
      Except.error
        "Cannot create a render target because the frambuffer is incomplete..." ∧
    (inner_create_render_texture incompleteState sampleRtInfo).2.present
      (.Texture 1) = true ∧
    (inner_create_render_texture incompleteState sampleRtInfo).2.gl_fbos = [2] ∧
    (inner_create_render_texture incompleteState sampleRtInfo).2.gl_bound_framebuffer
      = 2 := by
  exact ⟨rfl, rfl, rfl, rfl⟩

/-- **C5 witness**: the failure branch leaves a non-default framebuffer
bound; the success branch rebinds the default framebuffer and performs
exactly one transparent clear. -/
theorem render_target_creation_witness :
    (inner_create_render_texture incompleteState sampleRtInfo).2.gl_bound_framebuffer
      ≠ 0 ∧
    (inner_create_render_texture GlesState.initial sampleRtInfo).2.gl_bound_framebuffer
      = 0 ∧
    (inner_create_render_texture GlesState.initial
      sampleRtInfo).2.gl_calls.count (GLCall.clearColor Color.TRANSPARENT) = 1 := by
  obtain ⟨s2, heq, -, -, -, hne, -, -, -⟩ :=
    (render_target_creation incompleteState sampleRtInfo).1 rfl
  obtain ⟨s3, heq2, -, hbound, hcount⟩ :=
    (render_target_creation GlesState.initial sampleRtInfo).2 rfl
  have e2 : (inner_create_render_texture incompleteState sampleRtInfo).2 = s2 :=
    congrArg Prod.snd heq
  have e3 : (inner_create_render_texture GlesState.initial sampleRtInfo).2 = s3 :=
    congrArg Prod.snd heq2
  rw [e2, e3]
  exact ⟨hne, hbound, by simpa [GlesState.initial] using hcount⟩

/-! ## C1 — drop tracker and cleanup lifecycle: effect lemmas -/

/-- Removing an absent key is the identity. -/
theorem tableRemove_lookup_none {α : Type} (t : List (Nat × α)) (k : Nat)
    (h : tableLookup t k = none) : tableRemove t k = t := by
  induction t with
  | nil => rfl
  | cons kv rest ih =>
      rw [tableLookup] at h
      by_cases hk : kv.1 = k
      · rw [if_pos hk] at h; exact absurd h (by simp)
      · rw [if_neg hk] at h
        rw [tableRemove, List.filter_cons_of_pos (by simp [hk])]
        rw [tableRemove] at ih
        rw [ih h]

/-- `clean_buffer` removes the buffer binding and touches no other table. -/
theorem present_clean_buffer (s : GlesState) (id : Nat) (r : ResourceId) :
    (s.clean_buffer id).present r =
      match r with
      | .Buffer n => (tableLookup (tableRemove s.buffers id) n).isSome
      | _ => s.present r := by
  cases h : tableLookup s.buffers id with
  | none =>
      cases r <;> simp [GlesState.clean_buffer, h, GlesState.present,
        tableRemove_lookup_none s.buffers id h]
  | some buffer =>
      cases r <;> simp [GlesState.clean_buffer, h, GlesState.present, GlesState.emit]

/-- `clean_texture` removes the texture binding and touches no other table. -/
theorem present_clean_texture (s : GlesState) (id : Nat) (r : ResourceId) :
    (s.clean_texture id).present r =
      match r with
      | .Texture n => (tableLookup (tableRemove s.textures id) n).isSome
      | _ => s.present r := by
  cases h : tableLookup s.textures id with
  | none =>
      cases r <;> simp [GlesState.clean_texture, h, GlesState.present,
        tableRemove_lookup_none s.textures id h]
  | some texture =>
      cases r <;> simp [GlesState.clean_texture, h, GlesState.present, GlesState.emit]

/-- `clean_pipeline` removes the pipeline binding and touches no other table. -/
theorem present_clean_pipeline (s : GlesState) (id : Nat) (r : ResourceId) :
    (s.clean_pipeline id).present r =
      match r with
      | .Pipeline n => (tableLookup (tableRemove s.pipelines id) n).isSome
      | _ => s.present r := by
  cases h : tableLookup s.pipelines id with
  | none =>
      cases r <;> simp [GlesState.clean_pipeline, h, GlesState.present,
        tableRemove_lookup_none s.pipelines id h]
  | some pip =>
      cases r <;> simp [GlesState.clean_pipeline, h, GlesState.present, GlesState.emit]

/-- `clean_render_target` removes the render-target binding and touches no
other table. -/
theorem present_clean_render_target (s : GlesState) (id : Nat) (r : ResourceId) :
    (s.clean_render_target id).present r =
      match r with
      | .RenderTexture n => (tableLookup (tableRemove s.render_targets id) n).isSome
      | _ => s.present r := by
  cases h : tableLookup s.render_targets id with
  | none =>
      cases r <;> simp [GlesState.clean_render_target, h, GlesState.present,
        tableRemove_lookup_none s.render_targets id h]
  | some rt =>
      cases r <;> simp [GlesState.clean_render_target, h, GlesState.present,
        GlesState.emit]

/-- Cleaning a resource id removes its own binding. -/
theorem present_cleanResource_self (s : GlesState) (r : ResourceId) :
    (s.cleanResource r).present r = false := by
  cases r with
  | Buffer n =>
      rw [GlesState.cleanResource, present_clean_buffer]
      simp [tableLookup_remove_self]
  | Texture n =>
      rw [GlesState.cleanResource, present_clean_texture]
      simp [tableLookup_remove_self]
  | Pipeline n =>
      rw [GlesState.cleanResource, present_clean_pipeline]
      simp [tableLookup_remove_self]
  | RenderTexture n =>
      rw [GlesState.cleanResource, present_clean_render_target]
      simp [tableLookup_remove_self]

/-- Cleaning never resurrects an absent binding. -/
theorem present_cleanResource_absent (s : GlesState) (x r : ResourceId)
    (h : s.present r = false) : (s.cleanResource x).present r = false := by
  cases x with
  | Buffer id =>
      rw [GlesState.cleanResource, present_clean_buffer]
      cases r with
      | Buffer n =>
          cases hl : tableLookup s.buffers n with
          | some v => rw [GlesState.present, hl] at h; simp at h
          | none => simp [tableLookup_remove_none _ _ _ hl]
      | Texture n => exact h
      | Pipeline n => exact h
      | RenderTexture n => exact h
  | Texture id =>
      rw [GlesState.cleanResource, present_clean_texture]
      cases r with
      | Texture n =>
          cases hl : tableLookup s.textures n with
          | some v => rw [GlesState.present, hl] at h; simp at h
          | none => simp [tableLookup_remove_none _ _ _ hl]
      | Buffer n => exact h
      | Pipeline n => exact h
      | RenderTexture n => exact h
  | Pipeline id =>
      rw [GlesState.cleanResource, present_clean_pipeline]
      cases r with
      | Pipeline n =>
          cases hl : tableLookup s.pipelines n with
          | some v => rw [GlesState.present, hl] at h; simp at h
          | none => simp [tableLookup_remove_none _ _ _ hl]
      | Buffer n => exact h
      | Texture n => exact h
      | RenderTexture n => exact h
  | RenderTexture id =>
      rw [GlesState.cleanResource, present_clean_render_target]
      cases r with
      | RenderTexture n =>
          cases hl : tableLookup s.render_targets n with
          | some v => rw [GlesState.present, hl] at h; simp at h
          | none => simp [tableLookup_remove_none _ _ _ hl]
      | Buffer n => exact h
      | Texture n => exact h
      | Pipeline n => exact h

/-- `cleanBatch` on a cons. -/
theorem cleanBatch_cons (s : GlesState) (x : ResourceId) (l : List ResourceId) :
    s.cleanBatch (x :: l) = (s.cleanResource x).cleanBatch l := rfl

/-- `cleanBatch` preserves absence. -/
theorem present_cleanBatch_absent (s : GlesState) (l : List ResourceId)
    (r : ResourceId) (h : s.present r = false) : (s.cleanBatch l).present r = false := by
  induction l generalizing s with
  | nil => exact h
  | cons x rest ih =>
      rw [cleanBatch_cons]
      exact ih _ (present_cleanResource_absent s x r h)

/-- Every id handed to `cleanBatch` is absent from its table afterwards. -/
theorem present_cleanBatch_mem (s : GlesState) (l : List ResourceId)
    (r : ResourceId) (h : r ∈ l) : (s.cleanBatch l).present r = false := by
  induction l generalizing s with
  | nil => simp at h
  | cons x rest ih =>
      rw [cleanBatch_cons]
      rcases List.mem_cons.1 h with rfl | hmem
      · exact present_cleanBatch_absent _ rest r (present_cleanResource_self s r)
      · exact ih _ hmem

/-- The per-kind counters survive `clean_buffer`. -/
theorem counts_clean_buffer (s : GlesState) (id : Nat) :
    (s.clean_buffer id).counts = s.counts := by
  cases h : tableLookup s.buffers id <;>
    simp [GlesState.clean_buffer, h, GlesState.counts, GlesState.emit]

/-- The per-kind counters survive `clean_texture`. -/
theorem counts_clean_texture (s : GlesState) (id : Nat) :
    (s.clean_texture id).counts = s.counts := by
  cases h : tableLookup s.textures id <;>
    simp [GlesState.clean_texture, h, GlesState.counts, GlesState.emit]

/-- The per-kind counters survive `clean_pipeline`. -/
theorem counts_clean_pipeline (s : GlesState) (id : Nat) :
    (s.clean_pipeline id).counts = s.counts := by
  cases h : tableLookup s.pipelines id <;>
    simp [GlesState.clean_pipeline, h, GlesState.counts, GlesState.emit]

/-- The per-kind counters survive `clean_render_target`. -/
theorem counts_clean_render_target (s : GlesState) (id : Nat) :
    (s.clean_render_target id).counts = s.counts := by
  cases h : tableLookup s.render_targets id <;>
    simp [GlesState.clean_render_target, h, GlesState.counts, GlesState.emit]

/-- The per-kind counters survive cleaning one resource. -/
theorem counts_cleanResource (s : GlesState) (x : ResourceId) :
    (s.cleanResource x).counts = s.counts := by
  cases x with
  | Buffer id => exact counts_clean_buffer s id
  | Texture id => exact counts_clean_texture s id
  | Pipeline id => exact counts_clean_pipeline s id
  | RenderTexture id => exact counts_clean_render_target s id

/-- The per-kind counters survive a whole cleanup batch. -/
theorem counts_cleanBatch (s : GlesState) (l : List ResourceId) :
    (s.cleanBatch l).counts = s.counts := by
  induction l generalizing s with
  | nil => rfl
  | cons x rest ih => rw [cleanBatch_cons, ih, counts_cleanResource]

/-- `counterOf` is the projection of `counts`. -/
theorem counterOf_eq_counts_get (s : GlesState) (k : RKind) :
    s.counterOf k = s.counts.get k := by cases k <;> rfl

/-- Creation bumps exactly its kind's counter. -/
theorem counts_createResource (s : GlesState) (k : RKind) :
    (s.createResource k).counts = s.counts.bump k := by
  cases k <;> rfl

/-- Counters never decrease across creation. -/
theorem counterOf_createResource_le (s : GlesState) (k k2 : RKind) :
    s.counterOf k ≤ (s.createResource k2).counterOf k := by
  cases k <;> cases k2 <;>
    simp [GlesState.createResource, GlesState.counterOf]

/-- Creation registers only the fresh id `counter + 1`: any id within the old
counter range keeps its lookup result. -/
theorem present_createResource_ne (s : GlesState) (k : RKind) (r : ResourceId)
    (h : r.num ≤ s.counterOf r.kind) :
    (s.createResource k).present r = s.present r := by
  cases k <;> cases r <;>
    simp_all [GlesState.createResource, GlesState.present, ResourceId.kind,
      ResourceId.num, GlesState.counterOf] <;>
    rw [tableLookup_insert_ne] <;> omega

/-! ## C1 — run-level lemmas -/

/-- `runOps` step: a create registers on the backend and emits no batch. -/
theorem runOps_create (d : Device) (k : RKind) (rest : List Op) :
    runOps d (.create k :: rest) =
      runOps { d with backend := d.backend.createResource k } rest := by
  simp [runOps, runOp]

/-- `runOps` step: a handle drop appends one tracker entry and emits no batch. -/
theorem runOps_drop (d : Device) (r : ResourceId) (rest : List Op) :
    runOps d (.dropHandle r :: rest) =
      runOps { d with drop_manager := d.drop_manager ++ [r] } rest := by
  simp [runOps, runOp]

/-- `runOps` step: a clean of an empty tracker does nothing and emits no batch. -/
theorem runOps_clean_nil (d : Device) (rest : List Op) (h : d.drop_manager = []) :
    runOps d (.clean :: rest) = runOps d rest := by
  simp [runOps, runOp, Device.clean, h]

/-- `runOps` step: a clean of a non-empty tracker hands the whole queued list
to the backend in one call, clears the tracker, and emits that batch. -/
theorem runOps_clean_cons (d : Device) (rest : List Op) (h : d.drop_manager ≠ []) :
    runOps d (.clean :: rest) =
      ((runOps { d with backend := d.backend.cleanBatch d.drop_manager,
                        drop_manager := [] } rest).1,
       d.drop_manager ::
         (runOps { d with backend := d.backend.cleanBatch d.drop_manager,
                          drop_manager := [] } rest).2) := by
  simp [runOps, runOp, Device.clean, h]

/-- `dropsOf` equations. -/
theorem dropsOf_create (k : RKind) (rest : List Op) :
    dropsOf (.create k :: rest) = dropsOf rest := rfl

theorem dropsOf_drop (r : ResourceId) (rest : List Op) :
    dropsOf (.dropHandle r :: rest) = r :: dropsOf rest := rfl

theorem dropsOf_clean (rest : List Op) : dropsOf (.clean :: rest) = dropsOf rest := rfl

/-- In a valid run, an already-dropped id is never dropped again. -/
theorem validOps_disjoint (ops : List Op) :
    ∀ (c : Counts) (D : List ResourceId), validOps c D ops = true →
      ∀ r ∈ D, r ∉ dropsOf ops := by
  induction ops with
  | nil => intro c D hv r hr; simp [dropsOf]
  | cons op rest ih =>
      intro c D hv r hr
      cases op with
      | create k =>
          rw [dropsOf_create]
          exact ih _ D (by simpa [validOps] using hv) r hr
      | dropHandle r2 =>
          rw [dropsOf_drop]
          simp only [validOps, Bool.and_eq_true, decide_eq_true_eq] at hv
          obtain ⟨⟨⟨h1, h2⟩, h3⟩, hv'⟩ := hv
          have hne : r ≠ r2 := by
            intro he
            subst he
            simp only [Bool.not_eq_true'] at h3
            simp at h3
            exact h3 hr
          simp only [List.mem_cons]
          push_neg
          exact ⟨hne, ih _ (r2 :: D) hv' r (List.mem_cons_of_mem r2 hr)⟩
      | clean =>
          rw [dropsOf_clean]
          exact ih _ D (by simpa [validOps] using hv) r hr

/-- In a valid run each dropped id is dropped exactly once and is new. -/
theorem validOps_count_drops (ops : List Op) :
    ∀ (c : Counts) (D : List ResourceId), validOps c D ops = true →
      ∀ r ∈ dropsOf ops, r ∉ D ∧ List.count r (dropsOf ops) = 1 := by
  induction ops with
  | nil => intro c D hv r hr; simp [dropsOf] at hr
  | cons op rest ih =>
      intro c D hv r hr
      cases op with
      | create k =>
          rw [dropsOf_create] at hr ⊢
          exact ih _ D (by simpa [validOps] using hv) r hr
      | dropHandle r2 =>
          rw [dropsOf_drop] at hr ⊢
          simp only [validOps, Bool.and_eq_true, decide_eq_true_eq] at hv
          obtain ⟨⟨⟨h1, h2⟩, h3⟩, hv'⟩ := hv
          have hr2D : r2 ∉ D := by
            simp only [Bool.not_eq_true'] at h3
            simpa using h3
          rcases List.mem_cons.1 hr with rfl | hmem
          · refine ⟨hr2D, ?_⟩
            have hnot : r ∉ dropsOf rest :=
              validOps_disjoint rest _ (r :: D) hv' r (List.mem_cons_self r D)
            rw [List.count_cons]
            simp [List.count_eq_zero.2 hnot]
          · obtain ⟨hnD, hcnt⟩ := ih _ (r2 :: D) hv' r hmem
            have hne : r ≠ r2 := fun he => hnD (he ▸ List.mem_cons_self r2 D)
            refine ⟨fun hD => hnD (List.mem_cons_of_mem r2 hD), ?_⟩
            have hbe : (r2 == r) = false := beq_eq_false_iff_ne.2 (Ne.symm hne)
            rw [List.count_cons]
            simp [hbe, hcnt]
      | clean =>
          rw [dropsOf_clean] at hr ⊢
          exact ih _ D (by simpa [validOps] using hv) r hr

/-- `Device::clean` always leaves the tracker empty. -/
theorem device_clean_drop_manager (d : Device) : d.clean.1.drop_manager = [] := by
  by_cases h : d.drop_manager = [] <;> simp [Device.clean, h]

/-- A run whose last operation is a clean ends with an empty tracker. -/
theorem runOps_last_clean (ops : List Op) :
    ∀ d : Device, ops.getLast? = some Op.clean →
      (runOps d ops).1.drop_manager = [] := by
  induction ops with
  | nil => intro d h; simp at h
  | cons op rest ih =>
      intro d h
      cases rest with
      | nil =>
          have hop : op = Op.clean := by simpa using h
          subst hop
          by_cases hdm : d.drop_manager = []
          · rw [runOps_clean_nil d [] hdm]; simpa [runOps] using hdm
          · rw [runOps_clean_cons d [] hdm]; simp [runOps]
      | cons op2 rest2 =>
          have h2 : (op2 :: rest2).getLast? = some Op.clean := by
            rwa [List.getLast?_cons_cons] at h
          cases op with
          | create k => rw [runOps_create]; exact ih _ h2
          | dropHandle r => rw [runOps_drop]; exact ih _ h2
          | clean =>
              by_cases hdm : d.drop_manager = []
              · rw [runOps_clean_nil _ _ hdm]; exact ih _ h2
              · rw [runOps_clean_cons _ _ hdm]; exact ih _ h2

/-- The run invariant for valid lifecycle sequences: the tracker plus the
batches delivered so far hold each dropped id with its drop multiplicity,
delivered ids stay absent from the backend tables, and every dropped id's
number stays within its kind's counter. -/
theorem runOps_master (ops : List Op) :
    ∀ (d : Device) (D F : List ResourceId),
    validOps d.backend.counts D ops = true →
    (∀ r : ResourceId, List.count r d.drop_manager + List.count r F = List.count r D) →
    (∀ r ∈ F, d.backend.present r = false) →
    (∀ r ∈ D, 1 ≤ r.num ∧ r.num ≤ d.backend.counterOf r.kind) →
    (∀ r : ResourceId,
        List.count r (runOps d ops).1.drop_manager +
          List.count r (F ++ (runOps d ops).2.flatten) =
          List.count r (D ++ dropsOf ops)) ∧
    (∀ r ∈ F ++ (runOps d ops).2.flatten, (runOps d ops).1.backend.present r = false) ∧
    (∀ r ∈ D ++ dropsOf ops,
        1 ≤ r.num ∧ r.num ≤ (runOps d ops).1.backend.counterOf r.kind) := by
  induction ops with
  | nil =>
      intro d D F hv h1 h2 h3
      refine ⟨fun r => ?_, fun r hr => ?_, fun r hr => ?_⟩
      · simpa [runOps, List.count_append] using h1 r
      · simp only [runOps, List.flatten_nil, List.append_nil] at hr
        exact h2 r hr
      · simp only [dropsOf, List.append_nil] at hr
        simpa [runOps] using h3 r hr
  | cons op rest ih =>
      intro d D F hv h1 h2 h3
      cases op with
      | create k =>
          rw [runOps_create]
          have hv' : validOps
              ({ d with backend := d.backend.createResource k }).backend.counts D rest
              = true := by
            have hc : ({ d with backend := d.backend.createResource k }).backend.counts
                = d.backend.counts.bump k := counts_createResource d.backend k
            rw [hc]
            simpa [validOps] using hv
          have h2' : ∀ r ∈ F,
              ({ d with backend := d.backend.createResource k }).backend.present r
                = false := by
            intro r hr
            have hcF : 0 < List.count r F := List.count_pos_iff.2 hr
            have hcD : 0 < List.count r D := by have := h1 r; omega
            have hrD : r ∈ D := List.count_pos_iff.1 hcD
            have hb := (h3 r hrD).2
            show (d.backend.createResource k).present r = false
            rw [present_createResource_ne d.backend k r hb]
            exact h2 r hr
          have h3' : ∀ r ∈ D, 1 ≤ r.num ∧
              r.num ≤ ({ d with backend := d.backend.createResource k
                }).backend.counterOf r.kind := by
            intro r hr
            obtain ⟨ha, hb⟩ := h3 r hr
            exact ⟨ha, le_trans hb (counterOf_createResource_le d.backend r.kind k)⟩
          have := ih { d with backend := d.backend.createResource k } D F hv' h1 h2' h3'
          simpa [dropsOf_create] using this
      | dropHandle r2 =>
          rw [runOps_drop]
          simp only [validOps, Bool.and_eq_true, decide_eq_true_eq] at hv
          obtain ⟨⟨⟨hn1, hn2⟩, hnd⟩, hv'⟩ := hv
          have h1' : ∀ r : ResourceId,
              List.count r (d.drop_manager ++ [r2]) + List.count r F =
                List.count r (r2 :: D) := by
            intro r
            have h0 := h1 r
            by_cases hrr : r = r2
            · subst hrr; simp [List.count_append, List.count_cons]; omega
            · have hbe : (r2 == r) = false := beq_eq_false_iff_ne.2 (Ne.symm hrr)
              simp [List.count_append, List.count_cons, hbe]; omega
          have h3' : ∀ r ∈ r2 :: D, 1 ≤ r.num ∧
              r.num ≤ d.backend.counterOf r.kind := by
            intro r hr
            rcases List.mem_cons.1 hr with rfl | hmem
            · exact ⟨hn1, by rw [counterOf_eq_counts_get]; exact hn2⟩
            · exact h3 r hmem
          have hres := ih { d with drop_manager := d.drop_manager ++ [r2] }
            (r2 :: D) F hv' h1' h2 h3'
          obtain ⟨A, B, C⟩ := hres
          have hcnt : ∀ r : ResourceId,
              List.count r ((r2 :: D) ++ dropsOf rest) =
                List.count r (D ++ dropsOf (.dropHandle r2 :: rest)) := by
            intro r
            rw [dropsOf_drop]
            by_cases hrr : r = r2
            · subst hrr; simp [List.count_append, List.count_cons]; omega
            · have hbe : (r2 == r) = false := beq_eq_false_iff_ne.2 (Ne.symm hrr)
              simp [List.count_append, List.count_cons, hbe]
          have hmem : ∀ r : ResourceId,
              r ∈ D ++ dropsOf (.dropHandle r2 :: rest) ↔
                r ∈ (r2 :: D) ++ dropsOf rest := by
            intro r
            rw [dropsOf_drop]
            simp only [List.mem_append, List.mem_cons]
            tauto
          refine ⟨fun r => ?_, B, fun r hr => ?_⟩
          · rw [← hcnt r]; exact A r
          · exact C r ((hmem r).1 hr)
      | clean =>
          by_cases hdm : d.drop_manager = []
          · rw [runOps_clean_nil _ _ hdm]
            have hv' : validOps d.backend.counts D rest = true := by
              simpa [validOps] using hv
            have := ih d D F hv' h1 h2 h3
            simpa [dropsOf_clean] using this
          · rw [runOps_clean_cons _ _ hdm]
            have hv' : validOps
                ({ d with backend := d.backend.cleanBatch d.drop_manager,
                          drop_manager := [] }).backend.counts D rest = true := by
              show validOps (d.backend.cleanBatch d.drop_manager).counts D rest = true
              rw [counts_cleanBatch]
              simpa [validOps] using hv
            have h1' : ∀ r : ResourceId,
                List.count r ([] : List ResourceId) +
                  List.count r (F ++ d.drop_manager) = List.count r D := by
              intro r
              have := h1 r
              simp [List.count_append]
              omega
            have h2' : ∀ r ∈ F ++ d.drop_manager,
                (d.backend.cleanBatch d.drop_manager).present r = false := by
              intro r hr
              rcases List.mem_append.1 hr with hrF | hrB
              · exact present_cleanBatch_absent _ _ _ (h2 r hrF)
              · exact present_cleanBatch_mem _ _ _ hrB
            have h3' : ∀ r ∈ D, 1 ≤ r.num ∧
                r.num ≤ (d.backend.cleanBatch d.drop_manager).counterOf r.kind := by
              intro r hr
              obtain ⟨ha, hb⟩ := h3 r hr
              refine ⟨ha, ?_⟩
              rw [counterOf_eq_counts_get, counts_cleanBatch, ← counterOf_eq_counts_get]
              exact hb
            have hres := ih
              { d with backend := d.backend.cleanBatch d.drop_manager,
                       drop_manager := [] } D (F ++ d.drop_manager) hv' h1' h2' h3'
            obtain ⟨A, B, C⟩ := hres
            refine ⟨fun r => ?_, fun r hr => ?_, fun r hr => ?_⟩
            · have := A r
              rw [dropsOf_clean]
              simpa [List.count_append, List.flatten_cons] using this
            · apply B r
              simpa [List.mem_append, List.flatten_cons, or_assoc] using hr
            · rw [dropsOf_clean] at hr
              exact C r hr

/-- **C1**: `Device::clean` makes no backend call and changes nothing when
the tracker is empty; otherwise it delivers the entire queued list to the
backend's clean routine in a single call, clears the tracker, and every
delivered id is absent from the backend tables afterwards; and over any
valid create/drop/clean sequence ending in a clean, each dropped id is
delivered to the backend exactly once and is absent from the backend's
tables thereafter.  (The handle `Drop` impls that push onto the tracker are
modelled from the spec — the `gfx` handle modules are not under `src/`.) -/
theorem device_clean_lifecycle :
    (∀ d : Device, d.drop_manager = [] → d.clean = (d, none)) ∧
    (∀ d : Device, d.drop_manager ≠ [] →
      d.clean = ({ d with backend := d.backend.cleanBatch d.drop_manager,
                          drop_manager := [] }, some d.drop_manager) ∧
      ∀ r ∈ d.drop_manager,
        (d.backend.cleanBatch d.drop_manager).present r = false) ∧
    (∀ ops : List Op, validOps Device.initial.backend.counts [] ops = true →
      ops.getLast? = some Op.clean →
      ∀ r ∈ dropsOf ops,
        List.count r (runOps Device.initial ops).2.flatten = 1 ∧
        (runOps Device.initial ops).1.backend.present r = false) := by
  refine ⟨?_, ?_, ?_⟩
  · intro d h
    simp [Device.clean, h]
  · intro d h
    refine ⟨by simp [Device.clean, h], ?_⟩
    intro r hr
    exact present_cleanBatch_mem _ _ _ hr
  · intro ops hv hlast r hr
    obtain ⟨A, B, C⟩ := runOps_master ops Device.initial [] [] hv
      (by simp [Device.initial]) (by simp) (by simp)
    have hdm : (runOps Device.initial ops).1.drop_manager = [] :=
      runOps_last_clean ops Device.initial hlast
    have hA := A r
    rw [hdm] at hA
    simp only [List.count_nil, List.nil_append, Nat.zero_add] at hA
    have hdist := validOps_count_drops ops Device.initial.backend.counts [] hv r hr
    have hcnt : List.count r (runOps Device.initial ops).2.flatten = 1 := by
      rw [hA]; exact hdist.2
    refine ⟨hcnt, ?_⟩
    have hmem : r ∈ (runOps Device.initial ops).2.flatten :=
      List.count_pos_iff.1 (by rw [hcnt]; exact Nat.one_pos)
    exact B r (by simpa using hmem)

/-- **C1 witness**: create a texture, drop its handle, clean — the batch
delivered contains `Texture 1` exactly once and it is gone from the backend's
texture table; an empty-tracker clean is the identity with no backend call. -/
theorem device_clean_lifecycle_witness :
    Device.initial.clean = (Device.initial, none) ∧
    List.count (ResourceId.Texture 1)
      (runOps Device.initial
        [.create .Texture, .dropHandle (.Texture 1), .clean]).2.flatten = 1 ∧
    (runOps Device.initial
      [.create .Texture, .dropHandle (.Texture 1), .clean]).1.backend.present
        (.Texture 1) = false := by
  refine ⟨?_, ?_, ?_⟩
  · exact device_clean_lifecycle.1 Device.initial (by decide)
  · exact (device_clean_lifecycle.2.2
      [.create .Texture, .dropHandle (.Texture 1), .clean]
      (by decide) (by decide) (.Texture 1) (by decide)).1
  · exact (device_clean_lifecycle.2.2
      [.create .Texture, .dropHandle (.Texture 1), .clean]
      (by decide) (by decide) (.Texture 1) (by decide)).2

end PiDemo
